import Mathlib

/-!
Verification development for the voice-agent-orchestrator repository.

This file shallowly embeds the Python sources (src/state.py, src/router.py,
src/agents.py, src/main.py, src/streaming/session.py, src/streaming/vad.py,
src/streaming/pipeline.py, src/streaming/server.py) as executable Lean
definitions and proves properties of them.

Modelling conventions:
* Python strings are Lean `String`s; `str.strip`, slicing `s[:n]` / `s[-n:]`
  and friends are embedded as the `py*` helpers below, operating on the
  character list (Python indexes code points, as does `String.data`).
* Wall-clock times and RMS thresholds are rationals.
* asyncio concurrency is embedded by making the scheduling choices explicit
  oracle inputs (`PipelineEnv`), and by a small transition system for the
  per-session task bookkeeping of server.py.
* Fallible external calls (guardrail checks) are `Except String` values
  supplied by the oracle; `run_turn` has no exception handler in the source,
  which the embedding mirrors by propagating `.error` outcomes.
-/

set_option maxHeartbeats 1000000
set_option maxRecDepth 8000

/-! ## Python string and list helpers -/

/-- Characters removed by Python `str.strip()` (the ASCII whitespace set). -/
def pyIsSpace (c : Char) : Bool :=
  c = ' ' || c = '\t' || c = '\n' || c = '\x0d' || c = '\x0b' || c = '\x0c'

/-- Python `str.strip()` on a character list: drop whitespace from both
ends. -/
def stripL (l : List Char) : List Char :=
  ((l.dropWhile pyIsSpace).reverse.dropWhile pyIsSpace).reverse

/-- Python `str.strip()`. -/
def pyStrip (s : String) : String := ⟨stripL s.data⟩

/-- Python `str.rstrip()`. -/
def pyRstrip (s : String) : String :=
  ⟨(s.data.reverse.dropWhile pyIsSpace).reverse⟩

/-- Python `str.endswith` (on the character lists, so that it evaluates by
structural recursion). -/
def pyEndsWith (s p : String) : Bool := p.data.reverse.isPrefixOf s.data.reverse

/-- Python `s[:n]`. -/
def pySliceTo (s : String) (n : Nat) : String := ⟨s.data.take n⟩

/-- Python `s[-n:]` for a positive `n`. -/
def pySliceLastStr (s : String) (n : Nat) : String :=
  ⟨s.data.drop (s.data.length - n)⟩

/-- Python `l[-n:]` for a positive `n`. -/
def pySliceLast (l : List α) (n : Nat) : List α := l.drop (l.length - n)

/-- Python `str.lower()` (ASCII case mapping suffices for the sources). -/
def pyLower (s : String) : String := ⟨s.data.map Char.toLower⟩

/-- Python `str.upper()`. -/
def pyUpper (s : String) : String := ⟨s.data.map Char.toUpper⟩

/-- Python `str.title()` for a single word, e.g. `"bob".title() = "Bob"`. -/
def pyTitleWord (s : String) : String :=
  match s.data with
  | [] => ""
  | c :: rest => ⟨Char.toUpper c :: rest.map Char.toLower⟩

/-- If `pat` occurs in `s`, the suffix of `s` after the first occurrence. -/
def subAfter (pat : List Char) : List Char → Option (List Char)
  | [] => if pat.isEmpty then some [] else none
  | c :: rest =>
    if pat.isPrefixOf (c :: rest) then some (List.drop pat.length (c :: rest))
    else subAfter pat rest

/-- Substring containment, Python `pat in hay`. -/
def containsSub (hay pat : String) : Bool := (subAfter pat.data hay.data).isSome

/-- Split a character list on newline characters (used to embed the fact that
`.` in a Python regular expression does not match a newline). -/
def splitOnNl : List Char → List (List Char)
  | [] => [[]]
  | c :: rest =>
    let r := splitOnNl rest
    if c = '\n' then [] :: r
    else
      match r with
      | [] => [[c]]
      | h :: t => (c :: h) :: t

/-! ## state.py — ConversationState -/

/-- One transcript record, `{"speaker": …, "text": …, "timestamp": …}`. -/
structure Turn where
  speaker : String
  text : String
  timestamp : String
deriving Repr, DecidableEq

/-- A dynamically-typed value stored in `structured_state` (Python keeps
`None`, strings and lists of strings in these slots). -/
inductive PyVal
  | none
  | str (s : String)
  | plist (xs : List String)
deriving Repr, DecidableEq

/-- Python truthiness of a `PyVal`. -/
def PyVal.truthy : PyVal → Bool
  | .none => false
  | .str s => !s.isEmpty
  | .plist xs => !xs.isEmpty

/-- First-match association-list lookup (Python `dict` access / `in`). -/
def assocGet (l : List (String × α)) (k : String) : Option α :=
  (l.find? (fun p => p.1 = k)).map (·.2)

/-- Overwrite the value stored under an existing key. -/
def assocSet (l : List (String × α)) (k : String) (v : α) : List (String × α) :=
  l.map (fun p => if p.1 = k then (p.1, v) else p)

/-- Python `d[k] = v`: overwrite if present, append if absent. -/
def assocPut (l : List (String × α)) (k : String) (v : α) : List (String × α) :=
  if (l.find? (fun p => p.1 = k)).isSome then assocSet l k v else l ++ [(k, v)]

/-- The `structured_state` dictionary of `ConversationState.__init__`. -/
structure StructuredState where
  project : List (String × PyVal)
  open_questions : List String
  risks : List String
  decisions : List String
  materials_discussed : List String
deriving Repr, DecidableEq

/-- The initial `project` sub-dictionary. -/
def initialProject : List (String × PyVal) :=
  [("room", .none), ("budget", .none), ("goals", .plist []),
   ("constraints", .plist []), ("timeline", .none), ("diy_or_contractor", .none)]

def initialStructuredState : StructuredState :=
  ⟨initialProject, [], [], [], []⟩

/-- `ConversationState` (the `session_start` datetime is omitted: no claim and
no embedded operation reads it). -/
structure ConversationState where
  structured_state : StructuredState
  summary : String
  transcript_tail : List Turn
  full_transcript : List Turn
  turn_count : Nat
  agent_seen : List (String × Bool)
deriving Repr, DecidableEq

def initialConversationState : ConversationState :=
  ⟨initialStructuredState, "", [], [], 0, [("bob", false), ("alice", false)]⟩

/-- `self.max_tail_length = 12  # 6 exchanges`. -/
def max_tail_length : Nat := 12

/-- `ConversationState.add_turn` (state.py lines 48-69); `ts` stands for
`datetime.now().isoformat()`. -/
def add_turn (st : ConversationState) (speaker text ts : String) :
    ConversationState :=
  let turn : Turn := ⟨speaker, text, ts⟩
  let tail := st.transcript_tail ++ [turn]
  { st with
    full_transcript := st.full_transcript ++ [turn]
    transcript_tail :=
      if max_tail_length < tail.length then pySliceLast tail max_tail_length
      else tail
    turn_count := st.turn_count + 1 }

/-- The rolling-summary update of `ConversationState.update_from_turn`
(state.py line 76): append `" User: …. Agent: …."` and keep the last 500
characters. -/
def update_from_turn_summary (summary user_input agent_response : String) :
    String :=
  pySliceLastStr
    (summary ++ " User: " ++ user_input ++ ". Agent: " ++ agent_response ++ ".")
    500

/-- The identical background summary append of `_update_state_async`
(streaming/pipeline.py lines 298-300). -/
def update_state_async_summary (summary user_text agent_text : String) :
    String :=
  pySliceLastStr
    (summary ++ " User: " ++ user_text ++ ". Agent: " ++ agent_text ++ ".")
    500

/-! ### `_merge_updates` (state.py lines 116-138) -/

/-- A JSON value as delivered by the state-extraction LLM call; the sources
only ever merge nulls, strings and lists of strings into the state. -/
inductive JVal
  | jnull
  | jstr (s : String)
  | jlist (xs : List String)
deriving Repr, DecidableEq

def JVal.truthy : JVal → Bool
  | .jnull => false
  | .jstr s => !s.isEmpty
  | .jlist xs => !xs.isEmpty

def JVal.toPyVal : JVal → PyVal
  | .jnull => .none
  | .jstr s => .str s
  | .jlist xs => .plist xs

/-- The `updates` dictionary passed to `_merge_updates` (`project` is a
sub-dictionary; the three top-level list keys are present or absent). -/
structure MergeUpdates where
  project : List (String × JVal)
  open_questions : Option (List String)
  risks : Option (List String)
  decisions : Option (List String)
deriving Repr

/-- One iteration of `for k, v in p_up.items()` (state.py lines 121-130):
skip falsy values and unknown keys; extend list slots with items not already
present (the membership test runs against the list as it was *before* the
`extend`, exactly as the Python comprehension does); overwrite scalar slots. -/
def mergeProjectField (curr : List (String × PyVal)) (kv : String × JVal) :
    List (String × PyVal) :=
  if kv.2.truthy then
    match assocGet curr kv.1 with
    | Option.none => curr
    | some (PyVal.plist cs) =>
      match kv.2 with
      | .jlist vs =>
        assocSet curr kv.1 (.plist (cs ++ vs.filter (fun x => !cs.contains x)))
      | .jstr sv =>
        if cs.contains sv then curr else assocSet curr kv.1 (.plist (cs ++ [sv]))
      | .jnull => curr
    | some _ => assocSet curr kv.1 kv.2.toPyVal
  else curr

/-- The inner loop of the top-level merge (state.py lines 135-138): append
each item not already present, testing against the growing list. -/
def mergeUniqueItems (curr : List String) (items : List String) : List String :=
  items.foldl (fun acc item => if acc.contains item then acc else acc ++ [item])
    curr

/-- `if key in updates and updates[key]:` guard around the top-level merge. -/
def mergeTopLevel (curr : List String) (u : Option (List String)) :
    List String :=
  match u with
  | some items => if !items.isEmpty then mergeUniqueItems curr items else curr
  | Option.none => curr

/-- `ConversationState._merge_updates` (state.py lines 116-138). -/
def merge_updates (st : StructuredState) (u : MergeUpdates) : StructuredState :=
  { st with
    project := u.project.foldl mergeProjectField st.project
    open_questions := mergeTopLevel st.open_questions u.open_questions
    risks := mergeTopLevel st.risks u.risks
    decisions := mergeTopLevel st.decisions u.decisions }

/-- The `goals` list of a structured state (reading helper for theorems). -/
def projectGoals (st : StructuredState) : List String :=
  match assocGet st.project "goals" with
  | some (PyVal.plist xs) => xs
  | _ => []

/-- Boolean "this slot holds no byte-equal duplicates" for a `PyVal`. -/
def pyValNodup (v : PyVal) : Bool :=
  match v with
  | .plist xs => decide xs.Nodup
  | _ => true

/-- Boolean "this update value holds no byte-equal duplicates". -/
def jValNodup (v : JVal) : Bool :=
  match v with
  | .jlist xs => decide xs.Nodup
  | _ => true

/-! ## router.py — TransferRouter -/

/-- Match the literal parts of a pattern `lit1.*lit2.*…` in order within a
newline-free segment (`re.search` semantics for the router's patterns, whose
only metacharacter is `.*`). -/
def patMatch : List (List Char) → List Char → Bool
  | [], _ => true
  | p :: ps, s =>
    match subAfter p s with
    | some rest => patMatch ps rest
    | Option.none => false

/-- `re.search` of a pattern `lit1.*lit2.*…` (no `re.DOTALL`): `.` never
matches a newline and no literal part contains one, so any match lies inside
a single newline-free segment. -/
def reSearch (parts : List String) (s : String) : Bool :=
  (splitOnNl s.data).any (patMatch (parts.map String.data))

/-- The `"alice"` entry of `transfer_patterns` (router.py lines 16-27), each
regular expression as its list of literal parts. -/
def alice_patterns : List (List String) :=
  [["transfer", "alice"], ["let me talk to alice"], ["switch", "alice"],
   ["bring", "alice"], ["connect", "alice"], ["put", "alice", "on"],
   ["speak", "alice"], ["can i talk to alice"], ["i want alice"],
   ["i need alice"]]

/-- The `"bob"` entry of `transfer_patterns` (router.py lines 28-41). -/
def bob_patterns : List (List String) :=
  [["transfer", "bob"], ["let me talk to bob"], ["switch", "bob"],
   ["bring", "bob"], ["go back", "bob"], ["back to bob"], ["return", "bob"],
   ["put", "bob", "on"], ["speak", "bob"], ["can i talk to bob"],
   ["i want bob"], ["i need bob"]]

/-- `transfer_patterns` in dictionary insertion order (checked in this order
by `detect_transfer`). -/
def transfer_patterns : List (String × List (List String)) :=
  [("alice", alice_patterns), ("bob", bob_patterns)]

/-- `TransferRouter.detect_transfer` (router.py lines 50-76), reduced to the
`target_agent` component of its result (the only one the callers use). -/
def detect_transfer (user_input : String) : Option String :=
  if pyStrip user_input = "" then Option.none
  else
    let text := pyStrip (pyLower user_input)
    (transfer_patterns.find?
        (fun ap => ap.2.any (fun parts => reSearch parts text))).map (·.1)

/-! ## agents.py — AgentManager -/

/-- `AgentManager.BOB_SYSTEM_PROMPT` (agents.py lines 15-51). -/
def BOB_SYSTEM_PROMPT : String := "You are Bob, a friendly and approachable home renovation planning assistant.

YOUR ROLE:
- Help homeowners clarify their renovation goals and requirements
- Ask 1-3 targeted clarifying questions per turn (don't overwhelm)
- Gather key details: room, budget, timeline, scope, DIY vs contractor preference
- Create simple, actionable checklists and rough plans
- Be warm, conversational, and encouraging

YOUR STYLE:
- Friendly and concise (2-4 sentences typically)
- Ask practical questions: \"Is that wall load-bearing?\" \"What's your timeline?\" \"Doing this yourself or hiring pros?\"
- Give high-level guidance: \"Here's what I'd focus on first...\"
- Avoid deep technical details - that's Alice's domain

IMPORTANT CONSTRAINTS:
- Never provide professional engineering, legal, or licensed trade advice
- Always recommend consulting licensed professionals for structural, electrical, plumbing work
- Keep permit/code discussions general - suggest they check with local authorities
- Be realistic about costs and timelines

CONTEXT AWARENESS:
- You have access to the full conversation history and structured project state
- Reference previous details naturally: \"Given your $25k budget...\"
- Build on what you already know - don't ask questions you can answer from context

WHEN TO SUGGEST ALICE:
- If user asks technical questions about permits, codes, structural concerns
- If they want detailed material comparisons or risk analysis
- If they ask about inspection requirements or sequencing complex work
You can say: \"That's getting into Alice's specialty - want me to bring her in?\"

Keep responses concise and actionable. You're the friendly guide who helps people organize their thoughts.

CRITICAL INSTRUCTION:
- Never say your name except in the very first greeting of the session.
- On transfer, do not introduce yourself again. Continue immediately with context."

/-- `AgentManager.ALICE_SYSTEM_PROMPT` (agents.py lines 54-93). -/
def ALICE_SYSTEM_PROMPT : String := "You are Alice, a knowledgeable home renovation specialist focused on technical guidance and risk management.

YOUR ROLE:
- Provide detailed technical guidance on materials, methods, and sequencing
- Identify risks, code considerations, and common pitfalls
- Explain permit requirements and inspection processes (in general terms)
- Give rough cost breakdowns and trade-off analysis
- Help users understand what to expect and what to watch out for

YOUR STYLE:
- Structured and methodical (but not dry)
- Risk-aware: \"Here's what could go wrong and how to avoid it\"
- Detail-oriented: material pros/cons, typical costs, sequence of work
- Use bullet points or numbered lists when helpful
- Slightly more formal than Bob, but still accessible

IMPORTANT CONSTRAINTS:
- Never provide professional engineering, legal, or licensed trade advice
- Always emphasize: \"Consult a licensed [engineer/electrician/plumber] for specifics\"
- Permit guidance must be general: \"Typically permits are needed for X, but check your local jurisdiction\"
- Don't give exact code specifications - recommend they verify with local building department
- Be clear about what requires professional assessment (structural, electrical, gas, etc.)

CONTEXT AWARENESS:
- You receive full context from Bob when transferred
- Reference the project scope, budget, and constraints immediately
- Continue the conversation naturally: \"I see you're working with $25k for the kitchen...\"
- Don't make the user repeat information

WHEN TO SUGGEST BOB:
- If user wants to shift back to high-level planning or task lists
- If they want homeowner-friendly next steps
- If the conversation is wrapping up and they need an action plan
You can say: \"Want me to send you back to Bob for next steps?\"

Provide actionable technical guidance while being clear about professional boundaries. You're the knowledgeable specialist who helps people understand complexity.

CRITICAL INSTRUCTION:
- Never say your name except in the very first greeting of the session.
- On transfer, do not introduce yourself again. Continue immediately with context."

/-- `AgentManager`: `current_agent` is the one piece of mutable state; the
`system_prompts` mapping is the fixed function below. -/
structure AgentManager where
  current_agent : String
deriving Repr, DecidableEq

/-- The `system_prompts` dictionary (`current_agent` is always a known key;
an unknown key would be a Python `KeyError`, rendered here as `""`). -/
def system_prompts (agent : String) : String :=
  if agent = "bob" then BOB_SYSTEM_PROMPT
  else if agent = "alice" then ALICE_SYSTEM_PROMPT
  else ""

/-- `AgentManager.transfer_to` (agents.py lines 103-125): returns the updated
manager together with the handoff message (the source mutates in place and
returns the message). -/
def transfer_to (mgr : AgentManager) (target_agent : String) :
    AgentManager × String :=
  let target := pyLower target_agent
  if ¬ (target = "bob" ∨ target = "alice") then
    (mgr, "Sorry, I didn't understand that transfer request.")
  else if target = mgr.current_agent then
    (mgr, "You're already talking to " ++ pyTitleWord target ++ "!")
  else if target = "alice" then
    (⟨target⟩, "Bringing Alice in. She can help with the technical details.")
  else
    (⟨target⟩, "Switching back to Bob. He'll help you with next steps.")

/-- One chat message, `{"role": …, "content": …}`. -/
structure Message where
  role : String
  content : String
deriving Repr, DecidableEq

/-- Python `f"{value}"` for a stored `PyVal` (`repr` rendering for lists). -/
def pyValFormat : PyVal → String
  | .none => "None"
  | .str s => s
  | .plist xs =>
    "[" ++ String.intercalate ", " (xs.map (fun x => "'" ++ x ++ "'")) ++ "]"

/-- Python `", ".join(value)` where the value is a list of strings (joining a
string joins its characters). -/
def pyJoinComma : PyVal → String
  | .plist xs => String.intercalate ", " xs
  | .str s => String.intercalate ", " (s.data.map (fun c => String.mk [c]))
  | .none => ""

/-- JSON rendering of a string (the state never stores quotes, so no inner
escaping arises in practice). -/
def jsonOfString (s : String) : String := "\"" ++ s ++ "\""

def jsonOfPyVal : PyVal → String
  | .none => "null"
  | .str s => jsonOfString s
  | .plist xs => "[" ++ String.intercalate ", " (xs.map jsonOfString) ++ "]"

def jsonOfStringList (xs : List String) : String :=
  "[" ++ String.intercalate ", " (xs.map jsonOfString) ++ "]"

/-- `ConversationState.get_state_summary` = `json.dumps(structured_state,
indent=2)` (state.py lines 83-85); the embedding renders the same JSON
object with single-space layout instead of `indent=2`. -/
def get_state_summary (st : StructuredState) : String :=
  "\x7b \"project\": \x7b "
  ++ String.intercalate ", "
      (st.project.map (fun kv => jsonOfString kv.1 ++ ": " ++ jsonOfPyVal kv.2))
  ++ " \x7d, \"open_questions\": " ++ jsonOfStringList st.open_questions
  ++ ", \"risks\": " ++ jsonOfStringList st.risks
  ++ ", \"decisions\": " ++ jsonOfStringList st.decisions
  ++ ", \"materials_discussed\": " ++ jsonOfStringList st.materials_discussed
  ++ " \x7d"

/-- `state.agent_seen.get(agent, False)`. -/
def agentSeenGet (l : List (String × Bool)) (k : String) : Bool :=
  ((l.find? (fun p => p.1 = k)).map (·.2)).getD false

/-- `AgentManager._generate_handoff_note` (agents.py lines 236-278). -/
def generate_handoff_note (mgr : AgentManager) (state : ConversationState) :
    String :=
  let project := state.structured_state.project
  let getv := fun k => (assocGet project k).getD PyVal.none
  let notes : List String :=
    (if !project.isEmpty then
      ["WHAT WE KNOW:"]
      ++ (if (getv "room").truthy then
            ["- Room: " ++ pyValFormat (getv "room")] else [])
      ++ (if (getv "budget").truthy then
            ["- Budget: " ++ pyValFormat (getv "budget")] else [])
      ++ (if (getv "goals").truthy then
            ["- Goals: " ++ pyJoinComma (getv "goals")] else [])
      ++ (if (getv "constraints").truthy then
            ["- Constraints: " ++ pyJoinComma (getv "constraints")] else [])
     else [])
    ++ (if !state.structured_state.open_questions.isEmpty then
          ["\nOPEN QUESTIONS: "
            ++ String.intercalate ", " state.structured_state.open_questions]
        else [])
    ++ (if !state.structured_state.risks.isEmpty then
          ["\nKNOWN RISKS: "
            ++ String.intercalate ", " state.structured_state.risks]
        else [])
    ++ (match (state.transcript_tail.reverse.find?
                (fun t => t.speaker = "user")).map (·.text) with
        | some last_user => ["\nLAST USER MESSAGE: " ++ last_user]
        | Option.none => [])
    ++ (if mgr.current_agent = "alice" then
          ["\nRECOMMENDED FOCUS: Address technical concerns, risks, permits/codes (if relevant), sequencing, or material trade-offs."]
        else
          ["\nRECOMMENDED FOCUS: Provide actionable next steps, create task list, or help with high-level planning."])
  String.intercalate "\n" notes

/-- The no-reintroduction system message of `_add_intro_instruction`. -/
def INTRO_SUPPRESS_MSG : String :=
  "You have already introduced yourself in this session. DO NOT say your name or greeting again. Just continue the conversation."

/-- `AgentManager._build_messages` (agents.py lines 164-223) together with
the `_add_intro_instruction` call it makes (lines 225-234, which may mutate
`state.agent_seen`); returns the messages and the possibly-updated state. -/
def build_messages (mgr : AgentManager) (user_input : String)
    (state : ConversationState) (is_transfer : Bool) :
    List Message × ConversationState :=
  let m0 : List Message := [⟨"system", system_prompts mgr.current_agent⟩]
  -- `if state.structured_state:` — the dictionary is never empty, so the
  -- PROJECT STATE block is always present.
  let context_parts : List String :=
    ["PROJECT STATE:", get_state_summary state.structured_state]
    ++ (if !state.summary.isEmpty then
          ["\nCONVERSATION SUMMARY:\n" ++ state.summary] else [])
    ++ (if !state.transcript_tail.isEmpty then
          "\nRECENT CONVERSATION:" ::
            (pySliceLast state.transcript_tail 6).map
              (fun t => pyUpper t.speaker ++ ": " ++ t.text)
        else [])
    ++ (if is_transfer then
          ["\nHANDOFF NOTE:\n" ++ generate_handoff_note mgr state,
           "\nContinue the conversation naturally with full context.",
           "DO NOT GREET. DO NOT STATE YOUR NAME. Continue immediately where the previous agent left off."]
        else [])
  let m1 :=
    if !context_parts.isEmpty then
      m0 ++ [⟨"system", String.intercalate "\n" context_parts⟩]
    else m0
  let (m2, state') :=
    if agentSeenGet state.agent_seen mgr.current_agent then
      (m1 ++ [⟨"system", INTRO_SUPPRESS_MSG⟩], state)
    else
      (m1, { state with
              agent_seen := assocPut state.agent_seen mgr.current_agent true })
  (m2 ++ [⟨"user", user_input⟩], state')

/-! ## Outbound events (server.py / pipeline.py event schema) -/

/-- Outbound websocket events, restricted to the fields the claims inspect
(audio payloads of `tts_chunk` are elided). -/
inductive Event
  | guardrail_blocked (reason : String) (turn_id : Nat)
  | agent_change (agent from_agent handoff_message : String) (turn_id : Nat)
  | tts_chunk (turn_id : Nat)
  | tts_done (turn_id : Nat)
  | llm_token (token : String) (turn_id : Nat)
  | checkpoint_saved (partialText : String) (turn_id : Nat)
  | checkpoint_restored (partialText : String) (turn_id : Nat)
  | barge_in_ack (turn_id : Nat)
deriving Repr, DecidableEq

/-! ## streaming/guardrails.py — result record -/

/-- `GuardrailResult`, restricted to the two fields the pipeline reads. -/
structure GuardrailResult where
  ok : Bool
  reason : Option String
deriving Repr, DecidableEq

/-! ## streaming/session.py — Session -/

/-- `Session` (streaming/session.py lines 17-68). Queues, the websocket and
the WebRTC peer objects are external I/O handles and are not part of the
embedded state; `pipeline_task` and the `_tasks` registry are task handles,
embedded as numeric task identifiers. The two asyncio events are booleans. -/
structure Session where
  session_id : String
  agent_manager : AgentManager
  state : ConversationState
  router : List (String × List (List String))
  turn_id : Nat
  audio_buffer : List Nat
  tts_playing : Bool
  tts_deaf_until : ℚ
  pipeline_task : Option Nat
  pipeline_cancel : Bool
  tts_cancel : Bool
  pipeline_running : Bool
  tasks : List Nat
  turn_start_time : ℚ
  partial_response : String
  last_activity_time : ℚ
  inactivity_notified : Bool
deriving Repr, DecidableEq

/-- A freshly created session (`create_session`), with time stamps `t0`. -/
def mkSession (session_id : String) (t0 : ℚ) : Session :=
  ⟨session_id, ⟨"bob"⟩, initialConversationState, transfer_patterns,
   0, [], false, 0, Option.none, false, false, false, [], t0, "", t0, false⟩

/-- `Session.checkpoint` (session.py lines 70-72). -/
def Session.checkpoint (s : Session) (spoken_so_far : String) : Session :=
  { s with partial_response := pyStrip spoken_so_far }

/-- `Session.pop_checkpoint` (session.py lines 74-78): returns the saved
partial response and the session with the checkpoint cleared. -/
def Session.pop_checkpoint (s : Session) : String × Session :=
  (s.partial_response, { s with partial_response := "" })

/-- `Session.new_turn` (session.py lines 80-100). The method sets
`pipeline_cancel` and `tts_cancel` and clears them again a few lines later
with no `await` in between, so no cooperatively scheduled task can observe
the set signals and the net field effect is cleared signals. The second
component is the returned turn id; the third is the ghost record of the task
handle on which `pipeline_task.cancel()` was invoked, if any. -/
def new_turn (s : Session) (cancel_pipeline : Bool) (now : ℚ) :
    Session × Nat × Option Nat :=
  ({ s with
      turn_id := s.turn_id + 1
      pipeline_cancel := false
      tts_cancel := false
      pipeline_task := Option.none
      audio_buffer := []
      tts_playing := false
      turn_start_time := now },
   s.turn_id + 1,
   if cancel_pipeline then s.pipeline_task else Option.none)

/-! ## streaming/vad.py — VADProcessor -/

/-- `VADProcessor` configuration and mutable state (vad.py lines 31-63). -/
structure VADProcessor where
  sample_rate : Nat
  speech_threshold : ℚ
  silence_threshold_ms : ℚ
  min_speech_ms : ℚ
  barge_in_ms : ℚ
  chunk_size : Nat
  in_speech : Bool
  speech_start : Option ℚ
  silence_start : Option ℚ
  speech_duration_ms : ℚ
  silence_duration_ms : ℚ
deriving Repr, DecidableEq

/-- `VADProcessor.__init__` called with no arguments: the declared parameter
defaults of vad.py lines 42-56. -/
def vadInitDefaults : VADProcessor :=
  ⟨16000, 1/100, 10000, 150, 200, 512, false, Option.none, Option.none, 0, 0⟩

/-- The `VADProcessor` the server constructs per session (server.py lines
172-175) when the `VAD_SPEECH_THRESHOLD` and `VAD_SILENCE_MS` environment
variables are unset: the getenv fallbacks `"0.015"` and `"500"` are passed,
every other parameter keeps its constructor default. -/
def server_vad : VADProcessor :=
  { vadInitDefaults with speech_threshold := 15/1000, silence_threshold_ms := 500 }

/-! ## streaming/server.py — per-message branches -/

def TTS_DEAF_SECS : ℚ := 7/10
def STARTUP_DEAF_SECS : ℚ := 8
def MIN_AUDIO_BYTES : Nat := 8000
def MAX_AUDIO_BYTES : Nat := 400000

/-- `_do_barge_in` (server.py lines 405-409). -/
def do_barge_in (s : Session) : Session :=
  { s with tts_cancel := true, pipeline_cancel := true }

/-- The VAD barge-in branch of `_process_pcm_chunk` (server.py lines
245-258), after its gates have passed. -/
def barge_in_branch (s : Session) (now : ℚ) : Session × List Event :=
  let s1 := do_barge_in s
  ({ s1 with
      tts_playing := false
      tts_deaf_until := now + TTS_DEAF_SECS
      audio_buffer := [] },
   [Event.barge_in_ack s.turn_id])

/-- The `tts_playback_done` message branch of `ws_endpoint` (server.py lines
388-392). -/
def tts_playback_done_branch (s : Session) (now : ℚ) : Session :=
  { s with tts_playing := false, tts_deaf_until := now + TTS_DEAF_SECS }

/-- Result of the END_OF_UTTERANCE branch: the updated session, the audio
snapshot and turn id dispatched to `_process_audio_turn` (none when the
utterance was discarded), and the ghost record of the prior pipeline task
cancelled inside `new_turn`. -/
structure EouOut where
  session : Session
  dispatched : Option (List Nat × Nat)
  cancelled_prior : Option Nat
deriving Repr, DecidableEq

/-- The END_OF_UTTERANCE branch of `_process_pcm_chunk` (server.py lines
259-272): snapshot the buffer, call `new_turn` (which advances `turn_id` and
cancels the tracked pipeline task), reset the VAD, and only then apply the
startup-deaf and size gates; `fresh` is the id of the task created on
dispatch. -/
def eou_branch (s : Session) (now elapsed : ℚ) (fresh : Nat) : EouOut :=
  let snapshot := s.audio_buffer
  let r := new_turn s true now
  let s1 := r.1
  let turn_id := r.2.1
  let cancelled := r.2.2
  if elapsed < STARTUP_DEAF_SECS then ⟨s1, Option.none, cancelled⟩
  else if snapshot.length < MIN_AUDIO_BYTES then ⟨s1, Option.none, cancelled⟩
  else if MAX_AUDIO_BYTES < snapshot.length then ⟨s1, Option.none, cancelled⟩
  else ⟨{ s1 with pipeline_task := some fresh }, some (snapshot, turn_id), cancelled⟩

/-! ## Task bookkeeping of server.py as a transition system (for the
"at most one pipeline task" invariant)

States track the set of live `run_turn`/`_process_audio_turn` tasks of one
session and the handle stored in `session.pipeline_task`. Transitions embed
the three turn-starting dispatch sites and task completion:

* `eou`  — END_OF_UTTERANCE dispatch (server.py lines 259-272): `new_turn()`
  then `session.pipeline_task = asyncio.create_task(...)`.
* `text` — the `text_input` branch (server.py lines 355-367): `new_turn()`
  then `asyncio.create_task(run_turn(...))` — the created task is *not*
  assigned to `session.pipeline_task`.
* `inactivity` — the inactivity monitor (server.py lines 215-226):
  `new_turn()` then `session.pipeline_task = asyncio.create_task(...)`.
* `taskdone i` — a pipeline task finishes on its own.

`new_turn` cancels only the tracked handle. Its `pipeline_cancel.set()` /
`.clear()` pair encloses no `await`, and every pipeline and streaming-client
loop polls `.is_set()` between awaits (pipeline.py `cancelled()`,
streaming_llm.py line 47, streaming_tts.py lines 81-103), so a live
untracked task never observes the momentarily-set signal and keeps running. -/

structure Orch where
  turn_id : Nat
  tracked : Option Nat
  running : List Nat
  next_id : Nat
deriving Repr, DecidableEq

def orchInit : Orch := ⟨0, Option.none, [], 0⟩

/-- Cancel the tracked pipeline task handle (the `pipeline_task.cancel()`
part of `new_turn`). -/
def cancelTracked (o : Orch) : Orch :=
  match o.tracked with
  | some i => { o with running := o.running.erase i, tracked := Option.none }
  | Option.none => o

/-- `session.new_turn()` as seen by the task system. -/
def orchNewTurn (o : Orch) : Orch :=
  { cancelTracked o with turn_id := o.turn_id + 1 }

inductive OrchEvent
  | eou
  | text
  | inactivity
  | taskdone (i : Nat)
deriving Repr, DecidableEq

def orchStep (o : Orch) : OrchEvent → Orch
  | .eou =>
    let o1 := orchNewTurn o
    { o1 with
        tracked := some o1.next_id
        running := o1.running ++ [o1.next_id]
        next_id := o1.next_id + 1 }
  | .text =>
    let o1 := orchNewTurn o
    -- server.py line 366: `asyncio.create_task(run_turn(session, text, turn_id))`
    -- with no assignment to `session.pipeline_task`.
    { o1 with
        running := o1.running ++ [o1.next_id]
        next_id := o1.next_id + 1 }
  | .inactivity =>
    let o1 := orchNewTurn o
    { o1 with
        tracked := some o1.next_id
        running := o1.running ++ [o1.next_id]
        next_id := o1.next_id + 1 }
  | .taskdone i => { o with running := o.running.erase i }

def orchRun (o : Orch) (evs : List OrchEvent) : Orch := evs.foldl orchStep o

/-! ## main.py — CLI failure handling (V1 terminal assistant) -/

/-- `self.max_failures = 3` (main.py line 58). -/
def max_failures : Nat := 3

/-- The observable outcome of one `process_turn` body: it ran to completion,
or some step raised an exception. -/
inductive TurnOutcome
  | ok
  | raised (msg : String)
deriving Repr, DecidableEq

/-- Result of the `process_turn` exception handling (failure counter, whether
the session continues, apologies spoken via TTS by the handler). -/
structure CliOut where
  failures : Nat
  keep_going : Bool
  spoken : List String
deriving Repr, DecidableEq

/-- The exception handling of `VoiceAssistant.process_turn` (main.py lines
192-250): a completed body resets `failures` to 0 (line 240); an exception is
caught and logged, `failures` is incremented, and at `max_failures` the final
apology is spoken and the session ends, otherwise a short apology is spoken
and the session continues. -/
def process_turn_failure_step (failures : Nat) (outcome : TurnOutcome) :
    CliOut :=
  match outcome with
  | .ok => ⟨0, true, []⟩
  | .raised _ =>
    let f := failures + 1
    if max_failures ≤ f then
      ⟨f, false, ["I'm having technical difficulties. Goodbye."]⟩
    else
      ⟨f, true, ["Sorry, I hit an error. Try again?"]⟩

/-- The `VoiceAssistant.run` loop (main.py lines 269-278) folded over a
sequence of turn outcomes: returns the final failure counter, whether the
session is still alive, and everything the failure handlers spoke. -/
def cli_session_run (failures : Nat) : List TurnOutcome → Nat × Bool × List String
  | [] => (failures, true, [])
  | o :: rest =>
    let r := process_turn_failure_step failures o
    if r.keep_going then
      let t := cli_session_run r.failures rest
      (t.1, t.2.1, r.spoken ++ t.2.2)
    else (r.failures, false, r.spoken)

/-! ## streaming/pipeline.py — run_turn

The per-turn pipeline is an async function; its interaction with the event
loop is embedded through an explicit oracle (`PipelineEnv`):

* `guard_in` / `guard_out`: the results of the two `_guardrail.check` awaits
  (`Except.error` when the call raises — `run_turn` installs no exception
  handler, so the embedding propagates such an error to its caller).
* `llm_tokens`: the deltas yielded by `_llm.stream_tokens` (that client
  catches its own exceptions and ends the stream, streaming_llm.py 53-59).
* `cancel_from`: `pipeline_cancel` is monotone within one turn task, so its
  observations are determined by the index of the first `cancelled()` check
  that sees it set (`none` = never). Checks are counted in source order.
* `handoff_chunks`: number of audio chunks the handoff TTS stream yields.
* `flush_timer i`: whether the 25 ms coalescing window had elapsed when
  token `i` was processed.
* `tts_slot_free i`: whether the previous sentence-TTS task (`tts_task`) was
  already `done()` at the sentence boundary after token `i`.
* `tts_chunk_flows`: whether a started sentence-TTS task gets to emit at
  least one audio chunk (the point at which the source sets
  `session.tts_playing = True`, pipeline.py line 159).
* `ts`: the `datetime.now().isoformat()` timestamp used for transcript rows.
-/

structure PipelineEnv where
  guard_in : Except String GuardrailResult
  guard_out : Except String GuardrailResult
  llm_tokens : List String
  cancel_from : Option Nat
  handoff_chunks : Nat
  flush_timer : Nat → Bool
  tts_slot_free : Nat → Bool
  tts_chunk_flows : Bool
  ts : String

/-- Whether the `k`-th `cancelled()` check observes `pipeline_cancel` set. -/
def cancelledAt (cancel_from : Option Nat) (k : Nat) : Bool :=
  match cancel_from with
  | Option.none => false
  | some c => c ≤ k

/-- The handoff TTS loop (pipeline.py lines 89-96): one `cancelled()` check
per yielded chunk, before the chunk is sent. Returns the events, the next
check index, and whether the loop returned early on cancellation. -/
def handoff_tts_loop (cf : Option Nat) (turn_id : Nat) :
    Nat → Nat → List Event × Nat × Bool
  | k, 0 => ([], k, false)
  | k, n + 1 =>
    if cancelledAt cf k then ([], k + 1, true)
    else
      let r := handoff_tts_loop cf turn_id (k + 1) n
      (Event.tts_chunk turn_id :: r.1, r.2.1, r.2.2)

/-- Result of the transfer-detection block. -/
structure TransferOut where
  session : Session
  events : List Event
  k : Nat
  early_return : Bool
deriving Repr

/-- Step 2 of `run_turn` (pipeline.py lines 71-102): on a detected switch to
a different persona, run `transfer_to` (which updates `current_agent`),
record the `[Transferred to …]` system turn, emit `agent_change`, stream the
handoff TTS, and emit `tts_done`. -/
def transfer_block (env : PipelineEnv) (s : Session) (transfer : Option String)
    (turn_id : Nat) (k : Nat) : TransferOut :=
  match transfer with
  | Option.none => ⟨s, [], k, false⟩
  | some target =>
    if target = s.agent_manager.current_agent then ⟨s, [], k, false⟩
    else
      let from_agent := s.agent_manager.current_agent
      let tr := transfer_to s.agent_manager target
      let st' := add_turn s.state "system" ("[Transferred to " ++ target ++ "]")
        env.ts
      let s' := { s with agent_manager := tr.1, state := st' }
      let evs0 := [Event.agent_change target from_agent tr.2 turn_id]
      let hr := handoff_tts_loop env.cancel_from turn_id k env.handoff_chunks
      if hr.2.2 then ⟨s', evs0 ++ hr.1, hr.2.1, true⟩
      else if cancelledAt env.cancel_from hr.2.1 then
        ⟨s', evs0 ++ hr.1, hr.2.1 + 1, true⟩
      else ⟨s', evs0 ++ hr.1 ++ [Event.tts_done turn_id], hr.2.1 + 1, false⟩

/-- Result of `flush_tts_buffer`. -/
structure FlushOut where
  session : Session
  tts_buffer : String
  task_started : Bool
  events : List Event
deriving Repr

/-- `flush_tts_buffer` (pipeline.py lines 139-166): skip when the stripped
buffer is empty; when the single TTS slot is busy and `force` is false, keep
buffering; otherwise start `_stream_tts` for the stripped buffer and clear
it. A started task that gets to emit audio (`tts_chunk_flows`) sets
`session.tts_playing = True` with its first chunk. -/
def flush_tts_buffer (env : PipelineEnv) (s : Session) (buf : String)
    (task_started : Bool) (i : Nat) (turn_id : Nat) (force : Bool) : FlushOut :=
  if pyStrip buf = "" then ⟨s, buf, task_started, []⟩
  else if task_started && !env.tts_slot_free i && !force then
    ⟨s, buf, task_started, []⟩
  else if env.tts_chunk_flows then
    ⟨{ s with tts_playing := true }, "", true, [Event.tts_chunk turn_id]⟩
  else ⟨s, "", true, []⟩

/-- The sentence-boundary test of pipeline.py line 206. -/
def sentence_boundary (buf : String) : Bool :=
  [".", "!", "?", "\n"].any (fun p => pyEndsWith (pyRstrip buf) p)

/-- Mutable state of the token loop. -/
structure LoopState where
  s : Session
  full_response : String
  tts_buffer : String
  token_batch : List String
  task_started : Bool
  k : Nat
  i : Nat
  events : List Event
deriving Repr

/-- How the token loop ended. -/
inductive LoopExit
  | cancelled_exit (full_at_cancel : String)
  | completed
deriving Repr, DecidableEq

/-- The `async for token in _llm.stream_tokens(...)` loop (pipeline.py lines
168-207). Before each token a `cancelled()` check runs; on cancellation the
TTS task is cancelled (an external handle operation) and a non-empty stripped
response is checkpointed with a ≤120-character preview event (lines 175-187;
the loop exit carries the accumulated text as a ghost value). Otherwise the
token is accumulated, the coalescing batch is flushed when the timer allows,
and a sentence boundary hands the buffer to the single-slot TTS task. -/
def token_loop (env : PipelineEnv) (turn_id : Nat) :
    List String → LoopState → LoopState × LoopExit
  | [], st => (st, .completed)
  | tok :: rest, st =>
    if cancelledAt env.cancel_from st.k then
      let spoken := pyStrip st.full_response
      if spoken ≠ "" then
        ({ st with
            s := st.s.checkpoint spoken
            events := st.events
              ++ [Event.checkpoint_saved (pySliceTo spoken 120) turn_id]
            k := st.k + 1 },
         .cancelled_exit st.full_response)
      else ({ st with k := st.k + 1 }, .cancelled_exit st.full_response)
    else
      let full := st.full_response ++ tok
      let buf := st.tts_buffer ++ tok
      let batch := st.token_batch ++ [tok]
      let flushed :=
        if env.flush_timer st.i && !batch.isEmpty then
          (st.events ++ [Event.llm_token (String.join batch) turn_id],
           ([] : List String))
        else (st.events, batch)
      let after :=
        if sentence_boundary buf then
          flush_tts_buffer env st.s buf st.task_started st.i turn_id false
        else ⟨st.s, buf, st.task_started, []⟩
      token_loop env turn_id rest
        ⟨after.session, full, after.tts_buffer, flushed.2, after.task_started,
         st.k + 1, st.i + 1, flushed.1 ++ after.events⟩

/-- The result of one embedded `run_turn`, extended with ghost observations:
the message list handed to the LLM, the `is_transfer` flag computed at
pipeline.py line 108, and the accumulated LLM text at the moment a
cancellation exit ran (`none` when the turn was not cancelled there). -/
structure RunOut where
  session : Session
  events : List Event
  built_messages : List Message
  is_transfer : Bool
  cancelled_with_full : Option String
deriving Repr

/-- Steps 5-6 and the epilogue of `run_turn` (pipeline.py lines 244-267):
final forced TTS flush, await of the TTS task, the line-254 `cancelled()`
check, `tts_done`, and the user/agent `add_turn` pair (the background
`_update_state_async` task is modelled separately). -/
def run_turn_finish (env : PipelineEnv) (transcript : String) (turn_id : Nat)
    (s : Session) (full_response tts_buffer : String) (task_started : Bool)
    (k i : Nat) (evs : List Event) (messages : List Message)
    (is_transfer : Bool) : RunOut :=
  let fl := flush_tts_buffer env s tts_buffer task_started i turn_id true
  let s' := fl.session
  let evs1 := evs ++ fl.events
  if cancelledAt env.cancel_from k then
    ⟨s', evs1, messages, is_transfer, Option.none⟩
  else
    let evs2 := evs1 ++ [Event.tts_done turn_id]
    if full_response ≠ "" then
      let st1 := add_turn s'.state "user" transcript env.ts
      let st2 := add_turn st1 s'.agent_manager.current_agent full_response env.ts
      ⟨{ s' with state := st2 }, evs2, messages, is_transfer, Option.none⟩
    else ⟨s', evs2, messages, is_transfer, Option.none⟩

/-- Steps 4-9 of `run_turn` (pipeline.py lines 130-257): stream the LLM
tokens (`token_loop`), flush the trailing token batch, re-check
cancellation (line 217, with its checkpoint save), run the output guardrail
(lines 230-242), and finish (final TTS flush, `tts_done`, state update).
Factored out of `run_turn` so each pipeline stage is provable separately. -/
def run_turn_stream (env : PipelineEnv) (s4 : Session) (transcript : String)
    (turn_id k0 : Nat) (evs0 : List Event) (messages : List Message)
    (is_transfer : Bool) : Except String RunOut :=
  let lp := token_loop env turn_id env.llm_tokens
    ⟨s4, "", "", [], false, k0, 0, evs0⟩
  let lst := lp.1
  match lp.2 with
  | .cancelled_exit full =>
    .ok ⟨lst.s, lst.events, messages, is_transfer, some full⟩
  | .completed =>
    -- Flush any remaining tokens (lines 210-215)
    let evs :=
      if !lst.token_batch.isEmpty then
        lst.events ++ [Event.llm_token (String.join lst.token_batch) turn_id]
      else lst.events
    -- line 217 check
    if cancelledAt env.cancel_from lst.k then
      if pyStrip lst.full_response ≠ "" then
        .ok ⟨lst.s.checkpoint (pyStrip lst.full_response),
          evs ++ [Event.checkpoint_saved
            (pySliceTo (pyStrip lst.full_response) 120) turn_id],
          messages, is_transfer, some lst.full_response⟩
      else .ok ⟨lst.s, evs, messages, is_transfer, some lst.full_response⟩
    else
    -- Step 5: guardrail on LLM output (lines 230-242)
    if lst.full_response ≠ "" then
      match env.guard_out with
      | .error e => .error e
      | .ok r2 =>
        if !r2.ok then
          -- tts_task.cancel(); session.tts_cancel.set(); emit and return —
          -- `tts_playing` is left untouched on this path.
          .ok ⟨{ lst.s with tts_cancel := true },
            evs ++ [Event.guardrail_blocked
              (r2.reason.getD "Agent response was blocked by content policy")
              turn_id],
            messages, is_transfer, Option.none⟩
        else
          .ok (run_turn_finish env transcript turn_id lst.s lst.full_response
            lst.tts_buffer lst.task_started (lst.k + 1) lst.i evs messages
            is_transfer)
    else
      .ok (run_turn_finish env transcript turn_id lst.s lst.full_response
        lst.tts_buffer lst.task_started (lst.k + 1) lst.i evs messages
        is_transfer)

/-- `run_turn` (pipeline.py lines 44-267). No step installs an exception
handler, so a raising guardrail call propagates as `Except.error` out of the
task. The `cancelled()` checks are indexed in source order: 0 is line 68,
the handoff chunks and line 98 follow inside the transfer block, then line
104, then one per token (line 175), then line 217, then line 254. -/
def run_turn (env : PipelineEnv) (s : Session) (transcript : String)
    (turn_id : Nat) : Except String RunOut :=
  -- Step 1: guardrail on user input
  match env.guard_in with
  | .error e => .error e
  | .ok r =>
  if !r.ok then
    .ok ⟨s,
      [Event.guardrail_blocked
        (r.reason.getD "Content policy violation on your message") turn_id],
      [], false, Option.none⟩
  else if cancelledAt env.cancel_from 0 then .ok ⟨s, [], [], false, Option.none⟩
  else
  -- Step 2: transfer detection
  let transfer := detect_transfer transcript
  let tb := transfer_block env s transfer turn_id 1
  if tb.early_return then
    .ok ⟨tb.session, tb.events, [], false, Option.none⟩
  else if cancelledAt env.cancel_from tb.k then  -- line 104
    .ok ⟨tb.session, tb.events, [], false, Option.none⟩
  else
  let s1 := tb.session
  -- Step 3 (line 108): `is_transfer` is recomputed against the manager as it
  -- is *now* — after `transfer_to` already updated `current_agent`.
  let is_transfer :=
    match transfer with
    | Option.none => false
    | some t => decide (t ≠ s1.agent_manager.current_agent)
  -- Checkpoint restoration (lines 112-122)
  let pc := s1.pop_checkpoint
  let prior_partial := pc.1
  let s2 := pc.2
  let restored :=
    if prior_partial ≠ "" then
      ({ s2 with
          state := add_turn s2.state s2.agent_manager.current_agent
            ("[INTERRUPTED — was saying: " ++ prior_partial ++ "]") env.ts },
       tb.events ++ [Event.checkpoint_restored prior_partial turn_id])
    else (s2, tb.events)
  let s3 := restored.1
  let bm := build_messages s3.agent_manager transcript s3.state is_transfer
  let s4 := { s3 with state := bm.2 }
  -- Steps 4-9: stream LLM tokens, output guardrail, final flush, state update
  run_turn_stream env s4 transcript turn_id (tb.k + 1) restored.2 bm.1
    is_transfer

/-- Project the `RunOut` out of a non-raising `run_turn` result (the dummy is
never reached in the theorems below, which only apply it to `.ok` runs). -/
def runOutD (x : Except String RunOut) : RunOut :=
  match x with
  | .ok o => o
  | .error _ => ⟨mkSession "" 0, [], [], false, Option.none⟩

/-! ## Concrete instances used by the theorems below -/

/-- A passing guardrail result. -/
def benignGR : GuardrailResult := ⟨true, Option.none⟩

/-- Oracle for a transfer turn: both guardrail calls pass, the LLM yields no
tokens, no cancellation, the handoff TTS yields one chunk. -/
def envC1 : PipelineEnv :=
  ⟨.ok benignGR, .ok benignGR, [], Option.none, 1, fun _ => false,
   fun _ => true, false, "t0"⟩

/-- Oracle for a turn whose first guardrail call raises. -/
def envGuardRaises : PipelineEnv :=
  ⟨.error "boom", .ok benignGR, [], Option.none, 0, fun _ => false,
   fun _ => true, false, "t0"⟩

/-- Oracle under which the LLM yields a whitespace-only token and the
pipeline then observes cancellation (check index 3 is the line-175 check
before the second token). -/
def envC3x : PipelineEnv :=
  ⟨.ok benignGR, .ok benignGR, [" ", "x"], some 3, 0, fun _ => false,
   fun _ => true, false, "t1"⟩

/-- Oracle under which the LLM yields `"Hello there"` and the pipeline then
observes cancellation at the next line-175 check. -/
def envC3a : PipelineEnv :=
  ⟨.ok benignGR, .ok benignGR, ["Hello there", "x"], some 3, 0, fun _ => false,
   fun _ => true, false, "t2"⟩

/-- A benign oracle for the turn after an interruption: no cancellation, no
tokens, guardrails pass. -/
def envC3b : PipelineEnv :=
  ⟨.ok benignGR, .ok benignGR, [], Option.none, 0, fun _ => false,
   fun _ => true, false, "t3"⟩

/-- Oracle under which the LLM completes `"Hello"` uncancelled and the
output guardrail passes, but cancellation is first observed at the final
post-TTS check (pipeline.py line 254, check index 4 here): the token loop
consumed its one check at index 2 and the line-217 check at index 3 saw
nothing, so the turn returns from the line-254 check with non-empty
stripped accumulated text and no checkpoint. -/
def envC3c : PipelineEnv :=
  ⟨.ok benignGR, .ok benignGR, ["Hello"], some 4, 0, fun _ => false,
   fun _ => true, false, "t5"⟩

/-- Oracle under which one sentence is spoken (TTS chunks flow, setting
`tts_playing`) and the output guardrail then blocks the full response. -/
def envC5 : PipelineEnv :=
  ⟨.ok benignGR, .ok ⟨false, some "Policy"⟩, ["Hello."], Option.none, 0,
   fun _ => false, fun _ => true, true, "t4"⟩

/-- The session of the interrupted turn used by the checkpoint witness. -/
def sC3 : Session := mkSession "s" 0

/-- The session state as the interrupted turn of `envC3a` left it. -/
def sC3b : Session := (runOutD (run_turn envC3a sC3 "hi" 2)).session

/-- Updates whose own `goals` list repeats a new item. -/
def uC7 : MergeUpdates :=
  ⟨[("goals", .jlist ["a", "a"])], Option.none, Option.none, Option.none⟩

/-- Duplicate-free updates for the dedup witness. -/
def uC7good : MergeUpdates :=
  ⟨[("goals", .jlist ["a", "b"]), ("room", .jstr "kitchen")],
   some ["q1"], some ["r1"], Option.none⟩

/-- A session with an in-flight pipeline task and a 100-byte audio buffer
(shorter than `MIN_AUDIO_BYTES`). -/
def sC6 : Session :=
  { mkSession "s" 0 with
      turn_id := 5, pipeline_task := some 7,
      audio_buffer := List.replicate 100 0 }

/-! ## Helper lemmas -/

lemma dropWhile_dropWhile (p : α → Bool) (l : List α) :
    (l.dropWhile p).dropWhile p = l.dropWhile p := by
  induction l with
  | nil => rfl
  | cons a t ih =>
    by_cases h : p a
    · simp [List.dropWhile_cons, h, ih]
    · simp [List.dropWhile_cons, h]

lemma head?_dropWhile_false (p : α → Bool) (l : List α) :
    ∀ x ∈ (l.dropWhile p).head?, p x = false := by
  induction l with
  | nil => simp
  | cons a t ih =>
    by_cases h : p a
    · simpa [List.dropWhile_cons, h] using ih
    · simp [List.dropWhile_cons, h]

lemma dropWhile_eq_self_of_head (p : α → Bool) (l : List α)
    (h : ∀ x ∈ l.head?, p x = false) : l.dropWhile p = l := by
  cases l with
  | nil => rfl
  | cons a t => simp [List.dropWhile_cons, h a (by simp)]

lemma dropWhile_isSuffix (p : α → Bool) (l : List α) : l.dropWhile p <:+ l := by
  induction l with
  | nil => simp
  | cons a t ih =>
    by_cases h : p a
    · rw [List.dropWhile_cons_of_pos h]
      exact ih.trans (List.suffix_cons a t)
    · simp [List.dropWhile_cons_of_neg h]

lemma isPrefix_head?_eq {l₁ l₂ : List α} (h : l₁ <+: l₂) (hne : l₁ ≠ []) :
    l₂.head? = l₁.head? := by
  obtain ⟨t, rfl⟩ := h
  cases l₁ with
  | nil => exact absurd rfl hne
  | cons a s => rfl

lemma stripL_idem (l : List Char) : stripL (stripL l) = stripL l := by
  set p := pyIsSpace with hp
  set A := l.dropWhile p with hA
  have hBpre : stripL l <+: A := by
    have h := (List.reverse_prefix).mpr (dropWhile_isSuffix p A.reverse)
    rw [List.reverse_reverse] at h
    rw [stripL, ← hp, ← hA]
    exact h
  have hBhead : ∀ x ∈ (stripL l).head?, p x = false := by
    intro x hx
    by_cases hB : stripL l = []
    · rw [hB] at hx; simp at hx
    · rw [← isPrefix_head?_eq hBpre hB] at hx
      exact head?_dropWhile_false p l x hx
  have h1 : (stripL l).dropWhile p = stripL l :=
    dropWhile_eq_self_of_head p _ hBhead
  show ((((stripL l).dropWhile p).reverse).dropWhile p).reverse = stripL l
  rw [h1, stripL, ← hp, ← hA, List.reverse_reverse, dropWhile_dropWhile]

lemma pyStrip_idem (s : String) : pyStrip (pyStrip s) = pyStrip s := by
  show (⟨stripL (stripL s.data)⟩ : String) = ⟨stripL s.data⟩
  rw [stripL_idem]

lemma pySliceLastStr_length (s : String) (n : Nat) :
    (pySliceLastStr s n).length ≤ n := by
  show (s.data.drop (s.data.length - n)).length ≤ n
  rw [List.length_drop]
  omega

lemma pySliceTo_length (s : String) (n : Nat) :
    (pySliceTo s n).length ≤ n := by
  show (s.data.take n).length ≤ n
  rw [List.length_take]
  omega

/-! ## Theorems -/

/-- C8: for every prior state and inputs, the transcript tail has at most 12
entries after every `add_turn`, and the rolling summary has at most 500
characters after every `update_from_turn` summary append as well as after
the background summary append performed by the pipeline's state-update
task. -/
theorem tail_and_summary_bounds :
    (∀ (st : ConversationState) (speaker text ts : String),
      (add_turn st speaker text ts).transcript_tail.length ≤ 12)
    ∧ (∀ summary u a, (update_from_turn_summary summary u a).length ≤ 500)
    ∧ (∀ summary u a, (update_state_async_summary summary u a).length ≤ 500) := by
  refine ⟨fun st speaker text ts => ?_, fun summary u a => ?_,
    fun summary u a => ?_⟩
  · have h : (add_turn st speaker text ts).transcript_tail =
        (if max_tail_length
            < (st.transcript_tail ++ [Turn.mk speaker text ts]).length
         then pySliceLast (st.transcript_tail ++ [Turn.mk speaker text ts])
           max_tail_length
         else st.transcript_tail ++ [Turn.mk speaker text ts]) := rfl
    rw [h, max_tail_length]
    split
    · rw [pySliceLast, List.length_drop]
      omega
    · omega
  · exact pySliceLastStr_length _ 500
  · exact pySliceLastStr_length _ 500

/-- C9 counterexample: a `VADProcessor` constructed with the constructor's
default parameters has speech threshold 0.01 and end-of-utterance silence
threshold 10000 ms — not 0.015 and 500 ms as claimed. -/
theorem vad_constructor_defaults_counterexample :
    vadInitDefaults.speech_threshold = 1/100
    ∧ vadInitDefaults.silence_threshold_ms = 10000
    ∧ ¬ (vadInitDefaults.speech_threshold = 15/1000
        ∧ vadInitDefaults.silence_threshold_ms = 500
        ∧ vadInitDefaults.min_speech_ms = 150) := by
  refine ⟨rfl, rfl, ?_⟩
  intro ⟨h, _, _⟩
  norm_num [vadInitDefaults] at h

/-- C9 amended: the constructor defaults of `VADProcessor.__init__` are
speech threshold 0.01, silence threshold 10000 ms and minimum speech 150 ms;
the 0.015 / 500 ms values are the environment-variable fallbacks the server
passes when constructing the per-session VAD, whose minimum speech duration
remains the constructor default 150 ms. -/
theorem vad_defaults_amended :
    vadInitDefaults.speech_threshold = 1/100
    ∧ vadInitDefaults.silence_threshold_ms = 10000
    ∧ vadInitDefaults.min_speech_ms = 150
    ∧ server_vad.speech_threshold = 15/1000
    ∧ server_vad.silence_threshold_ms = 500
    ∧ server_vad.min_speech_ms = 150 :=
  ⟨rfl, rfl, rfl, rfl, rfl, rfl⟩

/-- C10: `Session.new_turn` modifies only `turn_id`, the two cancellation
signals, `pipeline_task`, `audio_buffer`, `tts_playing` and
`turn_start_time`; every other session field — in particular the saved
`partial_response` checkpoint, the conversation state, the persona manager
and the router — is unchanged, so a checkpoint saved during one turn
survives into the next turn's pipeline. -/
theorem new_turn_frame :
    ∀ (s : Session) (cp : Bool) (now : ℚ),
      let s' := (new_turn s cp now).1
      s'.session_id = s.session_id
      ∧ s'.agent_manager = s.agent_manager
      ∧ s'.state = s.state
      ∧ s'.router = s.router
      ∧ s'.partial_response = s.partial_response
      ∧ s'.last_activity_time = s.last_activity_time
      ∧ s'.inactivity_notified = s.inactivity_notified
      ∧ s'.tts_deaf_until = s.tts_deaf_until
      ∧ s'.pipeline_running = s.pipeline_running
      ∧ s'.tasks = s.tasks
      ∧ s'.turn_id = s.turn_id + 1
      ∧ s'.pipeline_task = Option.none
      ∧ s'.audio_buffer = []
      ∧ s'.tts_playing = false
      ∧ s'.pipeline_cancel = false
      ∧ s'.tts_cancel = false
      ∧ s'.turn_start_time = now
      ∧ (new_turn s cp now).2.1 = s.turn_id + 1 :=
  fun _ _ _ =>
    ⟨rfl, rfl, rfl, rfl, rfl, rfl, rfl, rfl, rfl, rfl, rfl, rfl, rfl, rfl,
     rfl, rfl, rfl, rfl⟩

/-- C1 (code bug): on a turn whose transcript makes the router indicate a
switch from "bob" to "alice", the handoff executes (the `agent_change` event
is emitted and `current_agent` becomes "alice"), yet the `is_transfer` flag
recomputed at pipeline.py line 108 is `false`, because `transfer_to` has
already updated `current_agent`; consequently the messages handed to the LLM
contain neither the handoff note nor the no-greeting instruction. -/
theorem transfer_turn_builds_messages_without_handoff :
    detect_transfer "transfer me to alice" = some "alice"
    ∧ (mkSession "s" 0).agent_manager.current_agent = "bob"
    ∧ (runOutD (run_turn envC1 (mkSession "s" 0) "transfer me to alice" 1)).is_transfer
        = false
    ∧ Event.agent_change "alice" "bob"
        "Bringing Alice in. She can help with the technical details." 1
        ∈ (runOutD (run_turn envC1 (mkSession "s" 0) "transfer me to alice" 1)).events
    ∧ (runOutD (run_turn envC1 (mkSession "s" 0) "transfer me to alice" 1)).session.agent_manager.current_agent
        = "alice"
    ∧ (runOutD (run_turn envC1 (mkSession "s" 0) "transfer me to alice" 1)).built_messages.map
        Message.role = ["system", "system", "user"]
    ∧ (runOutD (run_turn envC1 (mkSession "s" 0) "transfer me to alice" 1)).built_messages.getD
        0 ⟨"", ""⟩ = ⟨"system", ALICE_SYSTEM_PROMPT⟩
    ∧ (runOutD (run_turn envC1 (mkSession "s" 0) "transfer me to alice" 1)).built_messages.getD
        2 ⟨"", ""⟩ = ⟨"user", "transfer me to alice"⟩
    ∧ (!containsSub ((runOutD (run_turn envC1 (mkSession "s" 0) "transfer me to alice" 1)).built_messages.getD
        1 ⟨"", ""⟩).content "DO NOT GREET") = true
    ∧ (!containsSub ((runOutD (run_turn envC1 (mkSession "s" 0) "transfer me to alice" 1)).built_messages.getD
        1 ⟨"", ""⟩).content "HANDOFF NOTE") = true := by
  refine ⟨by decide, rfl, by decide, by decide, by decide, ?_, rfl, rfl, ?_, ?_⟩
  · rfl
  · decide
  · decide

/-- C2 (code bug): in the task transition system of server.py, two
consecutive `text_input` dispatches leave two pipeline tasks running at
once: the `text_input` branch never stores its `run_turn` task in
`session.pipeline_task`, and `new_turn`'s momentary set/clear of
`pipeline_cancel` is unobservable by the polling pipeline loops, so the
prior task is neither handle-cancelled nor signal-cancelled. -/
theorem two_pipeline_tasks_reachable :
    orchRun orchInit [OrchEvent.text, OrchEvent.text]
      = ⟨2, Option.none, [0, 1], 2⟩
    ∧ (orchRun orchInit [OrchEvent.text, OrchEvent.text]).running.length = 2
    ∧ (orchRun orchInit [OrchEvent.text, OrchEvent.eou]).running = [0, 1] := by
  refine ⟨by decide, by decide, by decide⟩

/-- C4 counterexample: a raising guardrail call inside step 1 of the
streaming pipeline's `run_turn` propagates out of the task uncaught — no
apology event or TTS is produced, contradicting the claimed failure
semantics for the streaming pipeline. -/
theorem run_turn_uncaught_exception :
    run_turn envGuardRaises (mkSession "s0" 0) "hello" 1
      = Except.error "boom" := rfl

/-- C4 amended: the streaming pipeline's `run_turn` catches nothing — any
exception from a pipeline step propagates out of the task unchanged; the
claimed failure semantics belong to the V1 terminal CLI (main.py
`process_turn`), where every exception is caught and surfaced as a spoken
apology and three consecutive failures end the session with a final apology,
while a completed turn resets the failure counter. -/
theorem cli_failure_semantics :
    (∀ (e : String) (s : Session) (transcript : String) (turn_id : Nat)
        (env : PipelineEnv), env.guard_in = Except.error e →
        run_turn env s transcript turn_id = Except.error e)
    ∧ (∀ f m, (process_turn_failure_step f (TurnOutcome.raised m)).spoken ≠ [])
    ∧ (∀ f, (process_turn_failure_step f TurnOutcome.ok).failures = 0)
    ∧ (∀ m1 m2 m3, cli_session_run 0
        [TurnOutcome.raised m1, TurnOutcome.raised m2, TurnOutcome.raised m3]
        = (3, false,
           ["Sorry, I hit an error. Try again?",
            "Sorry, I hit an error. Try again?",
            "I'm having technical difficulties. Goodbye."]))
    ∧ (∀ f m, 2 ≤ f →
        (process_turn_failure_step f (TurnOutcome.raised m)).keep_going = false) := by
  refine ⟨?_, ?_, fun f => rfl, fun m1 m2 m3 => rfl, ?_⟩
  · intro e s transcript turn_id env h
    unfold run_turn
    rw [h]
  · intro f m
    show (if max_failures ≤ f + 1 then
        (⟨f + 1, false, ["I'm having technical difficulties. Goodbye."]⟩ : CliOut)
      else ⟨f + 1, true, ["Sorry, I hit an error. Try again?"]⟩).spoken ≠ []
    split <;> simp
  · intro f m h
    show (if max_failures ≤ f + 1 then
        (⟨f + 1, false, ["I'm having technical difficulties. Goodbye."]⟩ : CliOut)
      else ⟨f + 1, true, ["Sorry, I hit an error. Try again?"]⟩).keep_going = false
    rw [max_failures, if_pos (by omega)]

/-- C4 witness: the amended statements applied at concrete inputs. -/
theorem cli_failure_semantics_witness :
    envGuardRaises.guard_in = Except.error "boom"
    ∧ run_turn envGuardRaises (mkSession "w" 0) "hi" 4 = Except.error "boom"
    ∧ (process_turn_failure_step 0 (TurnOutcome.raised "x")).spoken ≠ []
    ∧ 2 ≤ 5
    ∧ (process_turn_failure_step 5 (TurnOutcome.raised "x")).keep_going = false :=
  ⟨rfl,
   cli_failure_semantics.1 "boom" (mkSession "w" 0) "hi" 4 envGuardRaises rfl,
   cli_failure_semantics.2.1 0 "x",
   by decide,
   cli_failure_semantics.2.2.2.2 5 "x" (by decide)⟩

/-- C5 counterexample: a run in which a TTS chunk has flowed (so
`tts_playing` is true) and the output guardrail then blocks the completion
returns from the pipeline task with `tts_playing` still true. -/
theorem tts_playing_survives_guardrail_block :
    (mkSession "s" 0).tts_playing = false
    ∧ Event.tts_chunk 3
        ∈ (runOutD (run_turn envC5 (mkSession "s" 0) "hi there" 3)).events
    ∧ Event.guardrail_blocked "Policy" 3
        ∈ (runOutD (run_turn envC5 (mkSession "s" 0) "hi there" 3)).events
    ∧ (runOutD (run_turn envC5 (mkSession "s" 0) "hi there" 3)).session.tts_playing
        = true := by
  refine ⟨rfl, by decide, by decide, by decide⟩

/-- C5 amended: `tts_playing` is reset to false by `new_turn`, by the
server's barge-in branch and by the client's `tts_playback_done`
acknowledgment; the pipeline itself never resets it, so on an output
guardrail block after TTS chunks have flowed the pipeline task returns with
`tts_playing` still true, and the flag only returns to false through one of
those three paths. -/
theorem tts_playing_reset_paths :
    (∀ (s : Session) (cp : Bool) (now : ℚ),
      (new_turn s cp now).1.tts_playing = false)
    ∧ (∀ (s : Session) (now : ℚ),
      (tts_playback_done_branch s now).tts_playing = false)
    ∧ (∀ (s : Session) (now : ℚ),
      (barge_in_branch s now).1.tts_playing = false)
    ∧ (runOutD (run_turn envC5 (mkSession "s" 0) "hi there" 3)).session.tts_playing
        = true
    ∧ Event.guardrail_blocked "Policy" 3
        ∈ (runOutD (run_turn envC5 (mkSession "s" 0) "hi there" 3)).events :=
  ⟨fun _ _ _ => rfl, fun _ _ => rfl, fun _ _ => rfl, by decide, by decide⟩

/-- C6 counterexample: an END_OF_UTTERANCE over a 100-byte buffer (shorter
than `MIN_AUDIO_BYTES`) is discarded — nothing is dispatched, so no
`final_transcript` is possible — but `new_turn` has already run: `turn_id`
advanced from 5 to 6 and the in-flight pipeline task (handle 7) was
cancelled. -/
theorem eou_short_buffer_advances_turn :
    sC6.turn_id = 5
    ∧ sC6.audio_buffer.length = 100
    ∧ sC6.pipeline_task = some 7
    ∧ (eou_branch sC6 100 50 9).dispatched = Option.none
    ∧ (eou_branch sC6 100 50 9).session.turn_id = 6
    ∧ (eou_branch sC6 100 50 9).cancelled_prior = some 7 := by
  refine ⟨rfl, by decide, rfl, by decide, by decide, by decide⟩

/-- C6 amended: on an END_OF_UTTERANCE whose buffered audio is shorter than
8000 bytes the server discards the utterance — no audio is dispatched to
STT, hence no `final_transcript` and no pipeline task — but only after
`new_turn` has run: the turn id is advanced and cancellation of the stored
in-flight pipeline task has been requested. -/
theorem eou_short_buffer_discard :
    ∀ (s : Session) (now elapsed : ℚ) (fresh : Nat),
      s.audio_buffer.length < MIN_AUDIO_BYTES →
      (eou_branch s now elapsed fresh).dispatched = Option.none
      ∧ (eou_branch s now elapsed fresh).session.turn_id = s.turn_id + 1
      ∧ (eou_branch s now elapsed fresh).cancelled_prior = s.pipeline_task := by
  intro s now elapsed fresh h
  by_cases hst : elapsed < STARTUP_DEAF_SECS
  · simp [eou_branch, new_turn, hst]
  · simp [eou_branch, new_turn, hst, h]

/-- C6 witness: the amended statement applied to the concrete short-buffer
session. -/
theorem eou_short_buffer_discard_witness :
    sC6.audio_buffer.length < MIN_AUDIO_BYTES
    ∧ ((eou_branch sC6 100 50 9).dispatched = Option.none
      ∧ (eou_branch sC6 100 50 9).session.turn_id = sC6.turn_id + 1
      ∧ (eou_branch sC6 100 50 9).cancelled_prior = sC6.pipeline_task) :=
  ⟨by decide, eou_short_buffer_discard sC6 100 50 9 (by decide)⟩

/-! ### Deduplication lemmas for `_merge_updates` -/

lemma contains_false_not_mem {l : List String} {a : String}
    (h : l.contains a = false) : a ∉ l := by
  simpa using h

lemma mergeUniqueItems_nodup :
    ∀ (items curr : List String), curr.Nodup →
      (mergeUniqueItems curr items).Nodup := by
  intro items
  induction items with
  | nil => intro curr h; exact h
  | cons x xs ih =>
    intro curr h
    show (List.foldl (fun acc item => if acc.contains item then acc
      else acc ++ [item]) (if curr.contains x then curr else curr ++ [x])
      xs).Nodup
    by_cases hx : x ∈ curr
    · rw [show (if curr.contains x then curr else curr ++ [x]) = curr by
        simp [hx]]
      exact ih curr h
    · have hnd : (curr ++ [x]).Nodup := by
        rw [List.nodup_append]
        refine ⟨h, List.nodup_singleton x, ?_⟩
        intro a ha hax
        rw [List.mem_singleton] at hax
        exact hx (hax ▸ ha)
      rw [show (if curr.contains x then curr else curr ++ [x]) = curr ++ [x] by
        simp [hx]]
      exact ih (curr ++ [x]) hnd

lemma mergeTopLevel_nodup (curr : List String) (u : Option (List String))
    (h : curr.Nodup) : (mergeTopLevel curr u).Nodup := by
  cases u with
  | none => exact h
  | some items =>
    by_cases he : items.isEmpty
    · simpa [mergeTopLevel, he] using h
    · simpa [mergeTopLevel, he] using mergeUniqueItems_nodup items curr h

lemma assocGet_plist_nodup {curr : List (String × PyVal)} {k : String}
    {cs : List String} (hc : ∀ p ∈ curr, pyValNodup p.2 = true)
    (h : assocGet curr k = some (PyVal.plist cs)) : cs.Nodup := by
  unfold assocGet at h
  cases hfind : curr.find? (fun p => p.1 = k) with
  | none => rw [hfind] at h; simp at h
  | some q =>
    rw [hfind] at h
    simp only [Option.map_some'] at h
    have hq := List.mem_of_find?_eq_some hfind
    have hnd := hc q hq
    rw [Option.some_inj] at h
    rw [h] at hnd
    simpa [pyValNodup] using hnd

lemma assocSet_mem {l : List (String × α)} {k : String} {v : α} {p}
    (hp : p ∈ assocSet l k v) : p.2 = v ∨ p ∈ l := by
  unfold assocSet at hp
  obtain ⟨q, hq, hpq⟩ := List.mem_map.mp hp
  by_cases h : q.1 = k
  · left; rw [← hpq]; simp [h]
  · right; rw [← hpq]; simpa [h] using hq

lemma jValNodup_toPyVal {v : JVal} (h : jValNodup v = true) :
    pyValNodup v.toPyVal = true := by
  cases v with
  | jnull => simp [JVal.toPyVal, pyValNodup]
  | jstr s => simp [JVal.toPyVal, pyValNodup]
  | jlist xs => simpa [jValNodup, JVal.toPyVal, pyValNodup] using h

lemma mergeProjectField_nodup (curr : List (String × PyVal))
    (kv : String × JVal) (hc : ∀ p ∈ curr, pyValNodup p.2 = true)
    (hv : jValNodup kv.2 = true) :
    ∀ p ∈ mergeProjectField curr kv, pyValNodup p.2 = true := by
  intro p hp
  unfold mergeProjectField at hp
  split at hp
  · -- kv.2 is truthy
    split at hp
    · exact hc p hp                      -- key not in p_curr
    · -- current slot is a list `cs`
      rename_i cs hget
      split at hp
      · -- v is a list vs: extend with the not-yet-present items
        rename_i vs hkv
        rcases assocSet_mem hp with hv2 | hmem
        · rw [hv2]
          have hcs : cs.Nodup := assocGet_plist_nodup hc hget
          have hvs : vs.Nodup := by
            rw [hkv] at hv; simpa [jValNodup] using hv
          have : (cs ++ vs.filter (fun x => !cs.contains x)).Nodup := by
            rw [List.nodup_append]
            refine ⟨hcs, hvs.filter _, ?_⟩
            intro a ha hafil
            have h2 := (List.mem_filter.mp hafil).2
            simp only [Bool.not_eq_true'] at h2
            exact contains_false_not_mem h2 ha
          simpa [pyValNodup] using this
        · exact hc p hmem
      · -- v is a string sv: append if absent
        rename_i sv hkv
        split at hp
        · exact hc p hp                  -- already present
        · rename_i hnc
          rcases assocSet_mem hp with hv2 | hmem
          · rw [hv2]
            have hcs : cs.Nodup := assocGet_plist_nodup hc hget
            have hsv : sv ∉ cs := contains_false_not_mem (by simpa using hnc)
            have : (cs ++ [sv]).Nodup := by
              rw [List.nodup_append]
              refine ⟨hcs, List.nodup_singleton sv, ?_⟩
              intro a ha hax
              rw [List.mem_singleton] at hax
              exact hsv (hax ▸ ha)
            simpa [pyValNodup] using this
          · exact hc p hmem
      · exact hc p hp                    -- v is null (unreachable under truthy)
    · -- current slot is a scalar: overwrite
      rcases assocSet_mem hp with hv2 | hmem
      · rw [hv2]; exact jValNodup_toPyVal hv
      · exact hc p hmem
  · exact hc p hp                        -- kv.2 falsy

lemma foldl_mergeProjectField_nodup :
    ∀ (ups : List (String × JVal)) (curr : List (String × PyVal)),
      (∀ p ∈ curr, pyValNodup p.2 = true) →
      (∀ kv ∈ ups, jValNodup kv.2 = true) →
      ∀ p ∈ ups.foldl mergeProjectField curr, pyValNodup p.2 = true := by
  intro ups
  induction ups with
  | nil => intro curr hc _ p hp; exact hc p hp
  | cons kv rest ih =>
    intro curr hc hu p hp
    rw [List.foldl_cons] at hp
    exact ih (mergeProjectField curr kv)
      (mergeProjectField_nodup curr kv hc (hu kv (by simp)))
      (fun q hq => hu q (by simp [hq])) p hp

/-- C7 counterexample: starting from the fresh state, an update whose
`goals` list repeats the new item `"a"` leaves two byte-equal entries in
`project.goals` — the membership filter of state.py line 125 tests against
the list as it was before the `extend`. -/
theorem merge_updates_duplicate_goals_counterexample :
    projectGoals (merge_updates initialStructuredState uC7) = ["a", "a"]
    ∧ ¬ (projectGoals (merge_updates initialStructuredState uC7)).Nodup := by
  exact ⟨by decide, by decide⟩

/-- C7 amended: after `_merge_updates` the top-level lists
`open_questions`, `risks` and `decisions` stay duplicate-free for every
update; the project list fields stay duplicate-free provided each update
list is itself duplicate-free (an update list repeating a new item breaks
the invariant, per the counterexample). -/
theorem merge_updates_dedup :
    (∀ (st : StructuredState) (u : MergeUpdates), st.open_questions.Nodup →
      (merge_updates st u).open_questions.Nodup)
    ∧ (∀ (st : StructuredState) (u : MergeUpdates), st.risks.Nodup →
      (merge_updates st u).risks.Nodup)
    ∧ (∀ (st : StructuredState) (u : MergeUpdates), st.decisions.Nodup →
      (merge_updates st u).decisions.Nodup)
    ∧ (∀ (st : StructuredState) (u : MergeUpdates),
      (∀ p ∈ st.project, pyValNodup p.2 = true) →
      (∀ kv ∈ u.project, jValNodup kv.2 = true) →
      ∀ p ∈ (merge_updates st u).project, pyValNodup p.2 = true) := by
  refine ⟨fun st u h => mergeTopLevel_nodup _ _ h,
    fun st u h => mergeTopLevel_nodup _ _ h,
    fun st u h => mergeTopLevel_nodup _ _ h,
    fun st u hc hu => foldl_mergeProjectField_nodup u.project st.project hc hu⟩

/-- C7 witness: the amended statement applied to the fresh state and a
duplicate-free update. -/
theorem merge_updates_dedup_witness :
    initialStructuredState.open_questions.Nodup
    ∧ (∀ p ∈ initialStructuredState.project, pyValNodup p.2 = true)
    ∧ (∀ kv ∈ uC7good.project, jValNodup kv.2 = true)
    ∧ (merge_updates initialStructuredState uC7good).open_questions.Nodup
    ∧ (∀ p ∈ (merge_updates initialStructuredState uC7good).project,
        pyValNodup p.2 = true) :=
  ⟨by decide, by decide, by decide,
   merge_updates_dedup.1 initialStructuredState uC7good (by decide),
   merge_updates_dedup.2.2.2 initialStructuredState uC7good (by decide)
     (by decide)⟩

/-! ### Pipeline lemmas for the checkpoint round-trip -/

lemma cancelledAt_none (k : Nat) : cancelledAt Option.none k = false := rfl

lemma flush_state (env : PipelineEnv) (s : Session) (buf : String)
    (ts : Bool) (i tid : Nat) (force : Bool) :
    (flush_tts_buffer env s buf ts i tid force).session.state = s.state := by
  unfold flush_tts_buffer
  split
  · rfl
  · split
    · rfl
    · split <;> rfl

lemma flush_partial_resp (env : PipelineEnv) (s : Session) (buf : String)
    (ts : Bool) (i tid : Nat) (force : Bool) :
    (flush_tts_buffer env s buf ts i tid force).session.partial_response
      = s.partial_response := by
  unfold flush_tts_buffer
  split
  · rfl
  · split
    · rfl
    · split <;> rfl

lemma add_turn_mem {st : ConversationState} {t : Turn}
    (h : t ∈ st.full_transcript) (speaker text ts : String) :
    t ∈ (add_turn st speaker text ts).full_transcript :=
  List.mem_append_left _ h

lemma add_turn_self_mem (st : ConversationState) (speaker text ts : String) :
    (⟨speaker, text, ts⟩ : Turn) ∈ (add_turn st speaker text ts).full_transcript :=
  List.mem_append_right _ (by simp)

lemma build_messages_transcript (mgr : AgentManager) (ui : String)
    (st : ConversationState) (it : Bool) :
    (build_messages mgr ui st it).2.full_transcript = st.full_transcript := by
  unfold build_messages
  dsimp only
  repeat' split
  all_goals rfl

lemma handoff_loop_not_early (tid : Nat) :
    ∀ (n k : Nat), (handoff_tts_loop Option.none tid k n).2.2 = false := by
  intro n
  induction n with
  | zero => intro k; rfl
  | succ m ih =>
    intro k
    show (handoff_tts_loop Option.none tid k (m + 1)).2.2 = false
    rw [handoff_tts_loop]
    simp only [cancelledAt_none, Bool.false_eq_true, if_false]
    exact ih (k + 1)

lemma transfer_block_not_early {env : PipelineEnv} (s : Session)
    (t : Option String) (tid k : Nat) (hcf : env.cancel_from = Option.none) :
    (transfer_block env s t tid k).early_return = false := by
  cases t with
  | none => rfl
  | some target =>
    simp only [transfer_block]
    split
    · rfl
    · rw [hcf]
      simp [handoff_loop_not_early, cancelledAt_none]

lemma transfer_block_partial_resp (env : PipelineEnv) (s : Session)
    (t : Option String) (tid k : Nat) :
    (transfer_block env s t tid k).session.partial_response
      = s.partial_response := by
  cases t with
  | none => rfl
  | some target =>
    simp only [transfer_block]
    split
    · rfl
    · split
      · rfl
      · split <;> rfl

lemma token_loop_state (env : PipelineEnv) (tid : Nat) :
    ∀ (toks : List String) (st : LoopState),
      (token_loop env tid toks st).1.s.state = st.s.state := by
  intro toks
  induction toks with
  | nil => intro st; rfl
  | cons tok rest ih =>
    intro st
    rw [token_loop]
    split
    · dsimp only
      split <;> rfl
    · rw [ih]
      show (if sentence_boundary (st.tts_buffer ++ tok) then
          flush_tts_buffer env st.s (st.tts_buffer ++ tok) st.task_started
            st.i tid false
        else ⟨st.s, st.tts_buffer ++ tok, st.task_started, []⟩).session.state
        = st.s.state
      split
      · exact flush_state env st.s _ _ _ _ _
      · rfl

lemma token_loop_no_cancel {env : PipelineEnv} (tid : Nat)
    (hcf : env.cancel_from = Option.none) :
    ∀ (toks : List String) (st : LoopState),
      (token_loop env tid toks st).1.s.partial_response
          = st.s.partial_response
      ∧ (token_loop env tid toks st).2 = LoopExit.completed := by
  intro toks
  induction toks with
  | nil => intro st; exact ⟨rfl, rfl⟩
  | cons tok rest ih =>
    intro st
    rw [token_loop]
    rw [hcf]
    simp only [cancelledAt_none, Bool.false_eq_true, if_false]
    refine ⟨?_, (ih _).2⟩
    rw [(ih _).1]
    show (if sentence_boundary (st.tts_buffer ++ tok) then
        flush_tts_buffer env st.s (st.tts_buffer ++ tok) st.task_started
          st.i tid false
      else ⟨st.s, st.tts_buffer ++ tok, st.task_started, []⟩).session.partial_response
      = st.s.partial_response
    split
    · exact flush_partial_resp env st.s _ _ _ _ _
    · rfl

lemma token_loop_events_mono (env : PipelineEnv) (tid : Nat) (e : Event) :
    ∀ (toks : List String) (st : LoopState), e ∈ st.events →
      e ∈ (token_loop env tid toks st).1.events := by
  intro toks
  induction toks with
  | nil => intro st h; exact h
  | cons tok rest ih =>
    intro st h
    rw [token_loop]
    split
    · dsimp only
      split
      · exact List.mem_append_left _ h
      · exact h
    · refine ih _ ?_
      show e ∈ (if env.flush_timer st.i
            && !(st.token_batch ++ [tok]).isEmpty then
          (st.events ++ [Event.llm_token (String.join (st.token_batch ++ [tok])) tid],
           ([] : List String))
        else (st.events, st.token_batch ++ [tok])).1
        ++ (if sentence_boundary (st.tts_buffer ++ tok) then
          flush_tts_buffer env st.s (st.tts_buffer ++ tok) st.task_started
            st.i tid false
        else ⟨st.s, st.tts_buffer ++ tok, st.task_started, []⟩).events
      refine List.mem_append_left _ ?_
      split
      · exact List.mem_append_left _ h
      · exact h

lemma token_loop_cancelled (env : PipelineEnv) (tid : Nat) :
    ∀ (toks : List String) (st : LoopState) (full : String),
      (token_loop env tid toks st).2 = LoopExit.cancelled_exit full →
      pyStrip full ≠ "" →
      (token_loop env tid toks st).1.s.partial_response = pyStrip full
      ∧ Event.checkpoint_saved (pySliceTo (pyStrip full) 120) tid
          ∈ (token_loop env tid toks st).1.events := by
  intro toks
  induction toks with
  | nil =>
    intro st full h
    simp [token_loop] at h
  | cons tok rest ih =>
    intro st full h hne
    by_cases hc : cancelledAt env.cancel_from st.k = true
    · rw [token_loop] at h ⊢
      rw [if_pos hc] at h ⊢
      by_cases hsp : pyStrip st.full_response ≠ ""
      · rw [if_pos hsp] at h ⊢
        replace h : LoopExit.cancelled_exit st.full_response
            = LoopExit.cancelled_exit full := h
        rw [LoopExit.cancelled_exit.injEq] at h
        subst h
        constructor
        · show (st.s.checkpoint (pyStrip st.full_response)).partial_response
            = pyStrip st.full_response
          show pyStrip (pyStrip st.full_response) = pyStrip st.full_response
          exact pyStrip_idem _
        · exact List.mem_append_right _ (by simp)
      · rw [if_neg hsp] at h
        replace h : LoopExit.cancelled_exit st.full_response
            = LoopExit.cancelled_exit full := h
        rw [LoopExit.cancelled_exit.injEq] at h
        subst h
        exact absurd (by simpa using hsp) hne
    · rw [token_loop] at h ⊢
      rw [if_neg hc] at h ⊢
      exact ih _ full h hne

lemma finish_cwf (env : PipelineEnv) (tr : String) (tid : Nat) (s : Session)
    (fr buf : String) (ts : Bool) (k i : Nat) (evs : List Event)
    (ms : List Message) (it : Bool) :
    (run_turn_finish env tr tid s fr buf ts k i evs ms it).cancelled_with_full
      = Option.none := by
  unfold run_turn_finish
  dsimp only
  split
  · rfl
  · split <;> rfl

lemma finish_partial_resp (env : PipelineEnv) (tr : String) (tid : Nat)
    (s : Session) (fr buf : String) (ts : Bool) (k i : Nat)
    (evs : List Event) (ms : List Message) (it : Bool) :
    (run_turn_finish env tr tid s fr buf ts k i evs ms it).session.partial_response
      = s.partial_response := by
  unfold run_turn_finish
  dsimp only
  split
  · exact flush_partial_resp env s buf ts i tid true
  · split
    · exact flush_partial_resp env s buf ts i tid true
    · exact flush_partial_resp env s buf ts i tid true

lemma finish_transcript_mem (env : PipelineEnv) (tr : String) (tid : Nat)
    (s : Session) (fr buf : String) (ts : Bool) (k i : Nat)
    (evs : List Event) (ms : List Message) (it : Bool) {t : Turn}
    (ht : t ∈ s.state.full_transcript) :
    t ∈ (run_turn_finish env tr tid s fr buf ts k i evs ms
      it).session.state.full_transcript := by
  unfold run_turn_finish
  dsimp only
  have hfl := flush_state env s buf ts i tid true
  split
  · rw [hfl]; exact ht
  · split
    · show t ∈ (add_turn (add_turn (flush_tts_buffer env s buf ts i tid
        true).session.state "user" tr env.ts) _ fr env.ts).full_transcript
      exact add_turn_mem (add_turn_mem (hfl ▸ ht) _ _ _) _ _ _
    · rw [hfl]; exact ht

lemma finish_events_mono (env : PipelineEnv) (tr : String) (tid : Nat)
    (s : Session) (fr buf : String) (ts : Bool) (k i : Nat)
    (evs : List Event) (ms : List Message) (it : Bool) {e : Event}
    (he : e ∈ evs) :
    e ∈ (run_turn_finish env tr tid s fr buf ts k i evs ms it).events := by
  unfold run_turn_finish
  dsimp only
  split
  · exact List.mem_append_left _ he
  · split
    · exact List.mem_append_left _ (List.mem_append_left _ he)
    · exact List.mem_append_left _ (List.mem_append_left _ he)

/-- Save side of the checkpoint round-trip, at the streaming stage: if the
stream stage returns with a ghost cancelled-at text whose strip is
non-empty, the stripped text is the saved `partial_response` and the
`checkpoint_saved` preview event was emitted. -/
lemma run_turn_stream_cancelled (env : PipelineEnv) (s4 : Session)
    (tr : String) (tid k0 : Nat) (evs0 : List Event) (ms : List Message)
    (it : Bool) (out : RunOut) (full : String)
    (hrun : run_turn_stream env s4 tr tid k0 evs0 ms it = Except.ok out)
    (hfull : out.cancelled_with_full = some full)
    (hne : pyStrip full ≠ "") :
    out.session.partial_response = pyStrip full
    ∧ Event.checkpoint_saved (pySliceTo (pyStrip full) 120) tid
        ∈ out.events := by
  unfold run_turn_stream at hrun
  dsimp only at hrun
  set L := token_loop env tid env.llm_tokens
    ⟨s4, "", "", [], false, k0, 0, evs0⟩ with hL
  cases hlp : L.2 with
  | cancelled_exit f =>
    rw [hlp] at hrun
    dsimp only at hrun
    rw [Except.ok.injEq] at hrun
    subst hrun
    replace hfull : some f = some full := hfull
    rw [Option.some.injEq] at hfull
    subst hfull
    have h := token_loop_cancelled env tid env.llm_tokens
      ⟨s4, "", "", [], false, k0, 0, evs0⟩ f (by rw [← hL]; exact hlp) hne
    rw [← hL] at h
    exact h
  | completed =>
    rw [hlp] at hrun
    dsimp only at hrun
    by_cases hcl : cancelledAt env.cancel_from L.1.k = true
    · rw [if_pos hcl] at hrun
      by_cases hsp : pyStrip L.1.full_response ≠ ""
      · rw [if_pos hsp] at hrun
        rw [Except.ok.injEq] at hrun
        subst hrun
        replace hfull : some L.1.full_response = some full := hfull
        rw [Option.some.injEq] at hfull
        subst hfull
        constructor
        · show pyStrip (pyStrip L.1.full_response)
            = pyStrip L.1.full_response
          exact pyStrip_idem _
        · refine List.mem_append_right _ (by simp)
      · rw [if_neg hsp] at hrun
        rw [Except.ok.injEq] at hrun
        subst hrun
        replace hfull : some L.1.full_response = some full := hfull
        rw [Option.some.injEq] at hfull
        subst hfull
        exact absurd (by simpa using hsp) hne
    · rw [if_neg hcl] at hrun
      by_cases hfr : L.1.full_response ≠ ""
      · rw [if_pos hfr] at hrun
        cases hgo : env.guard_out with
        | error e => rw [hgo] at hrun; dsimp only at hrun; simp at hrun
        | ok r2 =>
          rw [hgo] at hrun
          dsimp only at hrun
          by_cases hr2 : (!r2.ok) = true
          · rw [if_pos hr2] at hrun
            rw [Except.ok.injEq] at hrun
            subst hrun
            simp at hfull
          · rw [if_neg hr2] at hrun
            rw [Except.ok.injEq] at hrun
            subst hrun
            rw [finish_cwf] at hfull
            simp at hfull
      · rw [if_neg hfr] at hrun
        rw [Except.ok.injEq] at hrun
        subst hrun
        rw [finish_cwf] at hfull
        simp at hfull

/-- No-cancellation pass-through of the streaming stage: the session's
transcript entries and the already-queued events survive into the result,
and `partial_response` is unchanged. -/
lemma run_turn_stream_no_cancel {env : PipelineEnv} (s4 : Session)
    (tr : String) (tid k0 : Nat) (evs0 : List Event) (ms : List Message)
    (it : Bool) (out : RunOut)
    (hcf : env.cancel_from = Option.none)
    (hrun : run_turn_stream env s4 tr tid k0 evs0 ms it = Except.ok out) :
    (∀ t ∈ s4.state.full_transcript, t ∈ out.session.state.full_transcript)
    ∧ (∀ e ∈ evs0, e ∈ out.events)
    ∧ out.session.partial_response = s4.partial_response := by
  unfold run_turn_stream at hrun
  dsimp only at hrun
  set L := token_loop env tid env.llm_tokens
    ⟨s4, "", "", [], false, k0, 0, evs0⟩ with hL
  have hstate : L.1.s.state = s4.state := by
    rw [hL]; exact token_loop_state env tid env.llm_tokens _
  have hpart : L.1.s.partial_response = s4.partial_response := by
    rw [hL]; exact (token_loop_no_cancel tid hcf env.llm_tokens _).1
  have hev : ∀ e ∈ evs0, e ∈ L.1.events := by
    intro e he
    rw [hL]
    exact token_loop_events_mono env tid e env.llm_tokens _ he
  have hdone : L.2 = LoopExit.completed := by
    rw [hL]; exact (token_loop_no_cancel tid hcf env.llm_tokens _).2
  rw [hdone] at hrun
  dsimp only at hrun
  rw [hcf] at hrun
  simp only [cancelledAt_none, Bool.false_eq_true, if_false] at hrun
  by_cases hfr : L.1.full_response ≠ ""
  · rw [if_pos hfr] at hrun
    cases hgo : env.guard_out with
    | error e => rw [hgo] at hrun; dsimp only at hrun; simp at hrun
    | ok r2 =>
      rw [hgo] at hrun
      dsimp only at hrun
      by_cases hr2 : (!r2.ok) = true
      · rw [if_pos hr2] at hrun
        rw [Except.ok.injEq] at hrun
        subst hrun
        refine ⟨?_, ?_, ?_⟩
        · intro t ht
          show t ∈ L.1.s.state.full_transcript
          rw [hstate]; exact ht
        · intro e he
          refine List.mem_append_left _ ?_
          split
          · exact List.mem_append_left _ (hev e he)
          · exact hev e he
        · exact hpart
      · rw [if_neg hr2] at hrun
        rw [Except.ok.injEq] at hrun
        subst hrun
        refine ⟨?_, ?_, ?_⟩
        · intro t ht
          exact finish_transcript_mem _ _ _ _ _ _ _ _ _ _ _ _
            (by rw [hstate]; exact ht)
        · intro e he
          refine finish_events_mono _ _ _ _ _ _ _ _ _ _ _ _ ?_
          split
          · exact List.mem_append_left _ (hev e he)
          · exact hev e he
        · rw [finish_partial_resp]; exact hpart
  · rw [if_neg hfr] at hrun
    rw [Except.ok.injEq] at hrun
    subst hrun
    refine ⟨?_, ?_, ?_⟩
    · intro t ht
      exact finish_transcript_mem _ _ _ _ _ _ _ _ _ _ _ _
        (by rw [hstate]; exact ht)
    · intro e he
      refine finish_events_mono _ _ _ _ _ _ _ _ _ _ _ _ ?_
      split
      · exact List.mem_append_left _ (hev e he)
      · exact hev e he
    · rw [finish_partial_resp]; exact hpart

/-- C3 counterexample: with accumulated LLM text `" "` (non-empty, but
whitespace only) at the moment the barge-in branch runs, nothing is saved
and no `checkpoint_saved` event is emitted: the code tests
`full_response.strip()`, not the accumulated text itself. -/
theorem whitespace_checkpoint_counterexample :
    (runOutD (run_turn envC3x (mkSession "s" 0) "hello" 2)).cancelled_with_full
      = some " "
    ∧ " " ≠ ""
    ∧ (runOutD (run_turn envC3x (mkSession "s" 0) "hello" 2)).session.partial_response
      = ""
    ∧ (runOutD (run_turn envC3x (mkSession "s" 0) "hello" 2)).events = [] := by
  refine ⟨by decide, by decide, by decide, by decide⟩

/-- C3 amended: (save) the pipeline preserves an interrupted response at
exactly its two checkpoint sites — the per-token cancellation check
(pipeline.py line 175) and the post-stream check (line 217): whenever one
of those two observes cancellation with accumulated LLM text whose
whitespace-strip is non-empty (the ghost `cancelled_with_full` marks
exactly those two exits, and no other), the stripped text is saved as
`partial_response` and a `checkpoint_saved` event carrying an
at-most-120-character preview is among the turn's emitted events; (loss)
cancellation first observed only at the final post-TTS check (line 254)
returns with nothing saved and no `checkpoint_saved` even though the
stripped accumulated text is non-empty — shown concretely by `envC3c`,
whose turn streams `"Hello"`, passes the output guardrail, and returns
with ghost `none`, an empty checkpoint and the flushed token event as its
only event (no `tts_done`); (restore) a next turn that starts with a saved
checkpoint, passes the input guardrail and is never cancelled records a
transcript entry whose text is exactly
`"[INTERRUPTED — was saying: " ++ saved ++ "]"`, emits
`checkpoint_restored` with the saved text, and returns with the checkpoint
cleared (so a second retrieval yields `""`). -/
theorem checkpoint_roundtrip :
    (∀ (env : PipelineEnv) (s : Session) (transcript : String)
        (turn_id : Nat) (out : RunOut) (full : String),
      run_turn env s transcript turn_id = Except.ok out →
      out.cancelled_with_full = some full →
      pyStrip full ≠ "" →
      out.session.partial_response = pyStrip full
      ∧ Event.checkpoint_saved (pySliceTo (pyStrip full) 120) turn_id
          ∈ out.events
      ∧ (pySliceTo (pyStrip full) 120).length ≤ 120)
    ∧ (∀ (env : PipelineEnv) (gr : GuardrailResult) (s : Session)
        (transcript : String) (turn_id : Nat) (out : RunOut),
      env.guard_in = Except.ok gr → gr.ok = true →
      env.cancel_from = Option.none →
      s.partial_response ≠ "" →
      run_turn env s transcript turn_id = Except.ok out →
      (∃ t ∈ out.session.state.full_transcript,
        t.text = "[INTERRUPTED — was saying: " ++ s.partial_response ++ "]")
      ∧ Event.checkpoint_restored s.partial_response turn_id ∈ out.events
      ∧ out.session.partial_response = "")
    ∧ ((runOutD (run_turn envC3c (mkSession "s" 0) "query" 5)).cancelled_with_full
        = Option.none
      ∧ (runOutD (run_turn envC3c (mkSession "s" 0) "query" 5)).events
        = [Event.llm_token "Hello" 5]
      ∧ (runOutD (run_turn envC3c (mkSession "s" 0) "query" 5)).session.partial_response
        = ""
      ∧ envC3c.llm_tokens = ["Hello"]
      ∧ pyStrip "Hello" ≠ "") := by
  refine ⟨?_, ?_, by decide, by decide, by decide, rfl, by decide⟩
  · -- save direction
    intro env s transcript turn_id out full hrun hfull hne
    unfold run_turn at hrun
    split at hrun
    · simp at hrun
    · split at hrun
      · rw [Except.ok.injEq] at hrun; subst hrun; simp at hfull
      · split at hrun
        · rw [Except.ok.injEq] at hrun; subst hrun; simp at hfull
        · dsimp only at hrun
          by_cases h1 : (transfer_block env s (detect_transfer transcript)
              turn_id 1).early_return = true
          · rw [if_pos h1] at hrun
            rw [Except.ok.injEq] at hrun; subst hrun; simp at hfull
          · rw [if_neg h1] at hrun
            by_cases h2 : cancelledAt env.cancel_from
                (transfer_block env s (detect_transfer transcript)
                  turn_id 1).k = true
            · rw [if_pos h2] at hrun
              rw [Except.ok.injEq] at hrun; subst hrun; simp at hfull
            · rw [if_neg h2] at hrun
              have h := run_turn_stream_cancelled _ _ _ _ _ _ _ _ out full
                hrun hfull hne
              exact ⟨h.1, h.2, pySliceTo_length _ _⟩
  · -- restore direction
    intro env gr s transcript turn_id out hgr hok hcf hpr hrun
    unfold run_turn at hrun
    rw [hgr] at hrun
    dsimp only at hrun
    simp only [hok, Bool.not_true, Bool.false_eq_true, if_false] at hrun
    rw [hcf] at hrun
    simp only [cancelledAt_none, Bool.false_eq_true, if_false] at hrun
    rw [transfer_block_not_early s (detect_transfer transcript) turn_id 1
      hcf] at hrun
    simp only [Bool.false_eq_true, if_false] at hrun
    simp only [Session.pop_checkpoint] at hrun
    try dsimp only at hrun
    rw [transfer_block_partial_resp] at hrun
    rw [if_pos hpr] at hrun
    try dsimp only at hrun
    have h := run_turn_stream_no_cancel _ _ _ _ _ _ _ _ hcf hrun
    refine ⟨?_, ?_, ?_⟩
    · refine ⟨⟨(transfer_block env s (detect_transfer transcript) turn_id
          1).session.agent_manager.current_agent,
        "[INTERRUPTED — was saying: " ++ s.partial_response ++ "]",
        env.ts⟩, ?_, rfl⟩
      refine h.1 _ ?_
      dsimp only
      rw [build_messages_transcript]
      exact add_turn_self_mem _ _ _ _
    · refine h.2.1 _ ?_
      exact List.mem_append_right _ (by simp)
    · exact h.2.2

/-- C3 witness: the round-trip applied to a concrete interrupted turn
(`envC3a`, saving `"Hello there"`) followed by a concrete benign turn
(`envC3b`, restoring it). -/
theorem checkpoint_roundtrip_witness :
    pyStrip "Hello there" ≠ ""
    ∧ run_turn envC3a sC3 "hi" 2
        = Except.ok (runOutD (run_turn envC3a sC3 "hi" 2))
    ∧ (runOutD (run_turn envC3a sC3 "hi" 2)).cancelled_with_full
        = some "Hello there"
    ∧ (runOutD (run_turn envC3a sC3 "hi" 2)).session.partial_response
        = pyStrip "Hello there"
    ∧ Event.checkpoint_saved (pySliceTo (pyStrip "Hello there") 120) 2
        ∈ (runOutD (run_turn envC3a sC3 "hi" 2)).events
    ∧ envC3b.guard_in = Except.ok benignGR
    ∧ benignGR.ok = true
    ∧ envC3b.cancel_from = Option.none
    ∧ sC3b.partial_response ≠ ""
    ∧ ((∃ t ∈ (runOutD (run_turn envC3b sC3b "go on" 3)).session.state.full_transcript,
          t.text = "[INTERRUPTED — was saying: "
            ++ sC3b.partial_response ++ "]")
      ∧ Event.checkpoint_restored sC3b.partial_response 3
          ∈ (runOutD (run_turn envC3b sC3b "go on" 3)).events
      ∧ (runOutD (run_turn envC3b sC3b "go on" 3)).session.partial_response
          = "") :=
  ⟨by decide, rfl, by decide,
   (checkpoint_roundtrip.1 envC3a sC3 "hi" 2 _ "Hello there" rfl (by decide)
     (by decide)).1,
   (checkpoint_roundtrip.1 envC3a sC3 "hi" 2 _ "Hello there" rfl (by decide)
     (by decide)).2.1,
   rfl, rfl, rfl, by decide,
   checkpoint_roundtrip.2.1 envC3b benignGR sC3b "go on" 3 _ rfl rfl rfl
     (by decide) rfl⟩
